import Mathlib

/-!
The file `nslcd/passwd.c`: passwd entry lookup routines.

A shallow embedding of `src/nslcd/passwd.c` and a verification of its
natural-language specification.

* C strings are lists of characters; memory is a map from addresses to
  characters; a pointer is an address, `none` standing for `NULL`.
* The scratch arena is the triple (memory, cursor `buffer`, remaining `buflen`)
  that `_nss_ldap_parse_pw` threads through its extraction steps.
* Routines of the repository that live outside `passwd.c` are modelled from the
  specification and say so in their doc comment.
-/

namespace NslcdPasswd

/-! ## C strings and memory -/

/-- The NUL character that terminates a C string. -/
def NUL : Char := Char.ofNat 0

/-- The C string held by a character sequence: everything before the first NUL. -/
def cstr : List Char → List Char
  | [] => []
  | c :: cs => if c = NUL then [] else c :: cstr cs

/-- The libc `strlen`: the number of characters before the first NUL. -/
def strlen (s : List Char) : Nat := (cstr s).length

/-- Memory: one character per address. -/
abbrev Mem := Nat → Char

/-- Store one character: `mem[p] = c`. -/
def poke (mem : Mem) (p : Nat) (c : Char) : Mem :=
  fun i => if i = p then c else mem i

/-- Store the characters of `s` from address `p` on, followed by a NUL
(what `strcpy(p, s)` does for a NUL-free `s`). -/
def write_cstring (mem : Mem) : Nat → List Char → Mem
  | p, [] => poke mem p NUL
  | p, c :: cs => write_cstring (poke mem p c) (p + 1) cs

/-- Read the C string that starts at address `p`, looking at no more than
`n` characters. -/
def read_cstring (mem : Mem) : Nat → Nat → List Char
  | 0, _ => []
  | n + 1, p => if mem p = NUL then [] else mem p :: read_cstring mem n (p + 1)

/-- Address `p` holds the NUL-terminated C string `s`. -/
def CStringAt (mem : Mem) : Nat → List Char → Prop
  | p, [] => mem p = NUL
  | p, c :: cs => c ≠ NUL ∧ mem p = c ∧ CStringAt mem (p + 1) cs

/-! ## Status codes, directory entries, records -/

/-- The values of `enum nss_status` that occur in this file. -/
inductive nss_status where
  | NSS_STATUS_TRYAGAIN
  | NSS_STATUS_UNAVAIL
  | NSS_STATUS_NOTFOUND
  | NSS_STATUS_SUCCESS
  deriving DecidableEq, Repr

open nss_status

/-- The attribute-name table of `attmap.h`: the directory attribute names the
logical fields are mapped to (run-time configuration, a parameter here). -/
structure Attmap where
  attmap_objectClass : String
  attmap_passwd_objectClass : String
  attmap_passwd_uid : String
  attmap_passwd_userPassword : String
  attmap_passwd_uidNumber : String
  attmap_passwd_gidNumber : String
  attmap_passwd_cn : String
  attmap_passwd_homeDirectory : String
  attmap_passwd_loginShell : String
  attmap_passwd_gecos : String

/-- The RFC 2307 attribute names the claims are phrased in. -/
def attmap_rfc2307 : Attmap where
  attmap_objectClass := "objectClass"
  attmap_passwd_objectClass := "posixAccount"
  attmap_passwd_uid := "uid"
  attmap_passwd_userPassword := "userPassword"
  attmap_passwd_uidNumber := "uidNumber"
  attmap_passwd_gidNumber := "gidNumber"
  attmap_passwd_cn := "cn"
  attmap_passwd_homeDirectory := "homeDirectory"
  attmap_passwd_loginShell := "loginShell"
  attmap_passwd_gecos := "gecos"

/-- One directory entry (`LDAPMessage`), read-only: which object classes it
carries and the values, in order, of each of its attributes (no values: `[]`). -/
structure LDAPMessage where
  has_class : String → Bool
  values : String → List (List Char)

/-- Modelled from the spec: `has_objectclass` (declared in `ldap-nss.h`, its body
is not in `passwd.c`) is the collaborator predicate
`entryHasAuxiliaryClass(entry, className) -> bool`. -/
def has_objectclass (e : LDAPMessage) (objectclass : String) : Bool :=
  e.has_class objectclass

/-- The string and numeric fields of `struct passwd`. A string field is a pointer
(`none` is `NULL`); `uid_t` and `gid_t` are unsigned 32-bit. -/
structure passwd where
  pw_name : Option Nat
  pw_passwd : Option Nat
  pw_uid : Nat
  pw_gid : Nat
  pw_gecos : Option Nat
  pw_dir : Option Nat
  pw_shell : Option Nat
  deriving DecidableEq, Repr

/-- The scratch arena: memory, the cursor `buffer` and the remaining
capacity `buflen`. -/
structure Arena where
  mem : Mem
  buffer : Nat
  buflen : Nat

/-- The macro `UID_NOBODY` of `passwd.c`. -/
def UID_NOBODY : Int := -2

/-- The macro `GID_NOBODY` of `passwd.c`. -/
def GID_NOBODY : Int := UID_NOBODY

/-- Conversion of a C integer to `uid_t` (unsigned 32-bit): reduction modulo 2^32. -/
def to_uid_t (z : Int) : Nat := (z % 2 ^ 32).toNat

/-- Conversion of a C integer to `gid_t` (unsigned 32-bit). -/
def to_gid_t (z : Int) : Nat := (z % 2 ^ 32).toNat

/-- The libc `isspace` in the C locale. -/
def isspace (c : Char) : Bool :=
  c = ' ' || (9 ≤ c.toNat && c.toNat ≤ 13)

/-- Value of the leading run of decimal digits of `s`, continuing from `acc`. -/
def digits_value : Nat → List Char → Nat
  | acc, [] => acc
  | acc, c :: cs =>
    if c.isDigit then digits_value (acc * 10 + (c.toNat - 48)) cs else acc

/-- The libc `atol`: skip white space, read an optional sign and the decimal
digits that follow (the strings read here have at most 11 characters, so the
value always fits a `long`). -/
def atol (s : List Char) : Int :=
  match s.dropWhile isspace with
  | '-' :: r => - (digits_value 0 r : Int)
  | '+' :: r => (digits_value 0 r : Int)
  | r => (digits_value 0 r : Int)

/-! ## Extraction helpers -/

/-- Modelled from the spec: `_nss_ldap_assign_attrval` (declared in `ldap-nss.h`,
its body is not in `passwd.c`) is the generic single-value extraction rule: read
the first value of the named attribute; no value is reported as not-found; if the
arena has not enough remaining capacity for the value plus its terminator,
out-of-space is reported; otherwise the bytes are carved at the cursor,
NUL-terminated, the capacity is deducted and the view is returned.
On an error neither `*valptr` nor the arena is touched. -/
def _nss_ldap_assign_attrval (e : LDAPMessage) (attr : String) (a : Arena) :
    Except nss_status (Nat × Arena) :=
  match e.values attr with
  | [] => .error NSS_STATUS_NOTFOUND
  | v :: _ =>
    if a.buflen < strlen v + 1 then .error NSS_STATUS_TRYAGAIN
    else .ok (a.buffer,
      { mem := write_cstring a.mem a.buffer (cstr v),
        buffer := a.buffer + (strlen v + 1),
        buflen := a.buflen - (strlen v + 1) })

/-- Modelled from the spec: `_nss_ldap_assign_userpassword` (declared in
`ldap-nss.h`, its body is not in `passwd.c`) copies the real password-attribute
value via the generic single-value extraction rule. -/
def _nss_ldap_assign_userpassword (e : LDAPMessage) (attr : String) (a : Arena) :
    Except nss_status (Nat × Arena) :=
  _nss_ldap_assign_attrval e attr a

/-- The function `_nss_ldap_assign_emptystring` of `passwd.c`: with fewer than 2
bytes left report out-of-space, else store a NUL at the cursor, hand that
address out and advance by one byte. -/
def _nss_ldap_assign_emptystring (a : Arena) : Except nss_status (Nat × Arena) :=
  if a.buflen < 2 then .error NSS_STATUS_TRYAGAIN
  else .ok (a.buffer,
    { mem := poke a.mem a.buffer NUL,
      buffer := a.buffer + 1,
      buflen := a.buflen - 1 })

/-! ## The record parser `_nss_ldap_parse_pw` -/

/-- What `_nss_ldap_parse_pw` works on: the record `*pw`, the arena
(`buffer`, `buflen` and the memory behind them) and the local `tmpbuf`. -/
structure ParseState where
  pw : passwd
  arena : Arena
  tmpbuf : Mem

/-- The constant `sizeof(uid_t)`. -/
def sizeof_uid_t : Nat := 4

/-- The size of the local `tmpbuf`: `sizeof(uid_t) * 8 / 3 + 2`. -/
def sizeof_tmpbuf : Nat := sizeof_uid_t * 8 / 3 + 2

/-- Line 147: `tmpbuf[sizeof(tmpbuf) - 1] = 0`. -/
def parse_pw_init (s : ParseState) : ParseState :=
  { s with tmpbuf := poke s.tmpbuf (sizeof_tmpbuf - 1) NUL }

/-- Lines 149-167: the password step. -/
def parse_pw_passwd (am : Attmap) (e : LDAPMessage) (s : ParseState) :
    nss_status × ParseState :=
  if has_objectclass e "shadowAccount" then
    if s.arena.buflen < 3 then (NSS_STATUS_TRYAGAIN, s)
    else
      (NSS_STATUS_SUCCESS,
        { s with
          pw := { s.pw with pw_passwd := some s.arena.buffer }
          arena :=
            { mem := write_cstring s.arena.mem s.arena.buffer ['x'],
              buffer := s.arena.buffer + 2,
              buflen := s.arena.buflen - 2 } })
  else
    match _nss_ldap_assign_userpassword e am.attmap_passwd_userPassword s.arena with
    | .error stat => (stat, s)
    | .ok (p, a) =>
      (NSS_STATUS_SUCCESS, { s with pw := { s.pw with pw_passwd := some p }, arena := a })

/-- Lines 169-173: the name step. -/
def parse_pw_name (am : Attmap) (e : LDAPMessage) (s : ParseState) :
    nss_status × ParseState :=
  match _nss_ldap_assign_attrval e am.attmap_passwd_uid s.arena with
  | .error stat => (stat, s)
  | .ok (p, a) =>
    (NSS_STATUS_SUCCESS, { s with pw := { s.pw with pw_name := some p }, arena := a })

/-- Lines 175-181: the numeric uid step, which extracts into `tmpbuf`. -/
def parse_pw_uid (am : Attmap) (e : LDAPMessage) (s : ParseState) :
    nss_status × ParseState :=
  match _nss_ldap_assign_attrval e am.attmap_passwd_uidNumber
      { mem := s.tmpbuf, buffer := 0, buflen := sizeof_tmpbuf - 1 } with
  | .error stat => (stat, s)
  | .ok (uid, t) =>
    (NSS_STATUS_SUCCESS,
      { s with
        tmpbuf := t.mem
        pw := { s.pw with
          pw_uid :=
            if t.mem uid = NUL then to_uid_t UID_NOBODY
            else to_uid_t (atol (read_cstring t.mem (sizeof_tmpbuf - uid) uid)) } })

/-- Lines 183-190: the numeric gid step, which extracts into `tmpbuf`. -/
def parse_pw_gid (am : Attmap) (e : LDAPMessage) (s : ParseState) :
    nss_status × ParseState :=
  match _nss_ldap_assign_attrval e am.attmap_passwd_gidNumber
      { mem := s.tmpbuf, buffer := 0, buflen := sizeof_tmpbuf - 1 } with
  | .error stat => (stat, s)
  | .ok (gid, t) =>
    (NSS_STATUS_SUCCESS,
      { s with
        tmpbuf := t.mem
        pw := { s.pw with
          pw_gid :=
            if t.mem gid = NUL then to_gid_t GID_NOBODY
            else to_gid_t (atol (read_cstring t.mem (sizeof_tmpbuf - gid) gid)) } })

/-- Lines 192-203: the gecos step with its fallback to cn. -/
def parse_pw_gecos (am : Attmap) (e : LDAPMessage) (s : ParseState) :
    nss_status × ParseState :=
  match _nss_ldap_assign_attrval e am.attmap_passwd_gecos s.arena with
  | .ok (p, a) =>
    (NSS_STATUS_SUCCESS, { s with pw := { s.pw with pw_gecos := some p }, arena := a })
  | .error _ =>
    match _nss_ldap_assign_attrval e am.attmap_passwd_cn s.arena with
    | .error stat => (stat, { s with pw := { s.pw with pw_gecos := none } })
    | .ok (p, a) =>
      (NSS_STATUS_SUCCESS, { s with pw := { s.pw with pw_gecos := some p }, arena := a })

/-- Lines 205-209: the home directory step; the status of
`_nss_ldap_assign_emptystring` is discarded. -/
def parse_pw_dir (am : Attmap) (e : LDAPMessage) (s : ParseState) : ParseState :=
  match _nss_ldap_assign_attrval e am.attmap_passwd_homeDirectory s.arena with
  | .ok (p, a) => { s with pw := { s.pw with pw_dir := some p }, arena := a }
  | .error _ =>
    match _nss_ldap_assign_emptystring s.arena with
    | .ok (p, a) => { s with pw := { s.pw with pw_dir := some p }, arena := a }
    | .error _ => s

/-- Lines 211-215: the login shell step; the status of
`_nss_ldap_assign_emptystring` is discarded. -/
def parse_pw_shell (am : Attmap) (e : LDAPMessage) (s : ParseState) : ParseState :=
  match _nss_ldap_assign_attrval e am.attmap_passwd_loginShell s.arena with
  | .ok (p, a) => { s with pw := { s.pw with pw_shell := some p }, arena := a }
  | .error _ =>
    match _nss_ldap_assign_emptystring s.arena with
    | .ok (p, a) => { s with pw := { s.pw with pw_shell := some p }, arena := a }
    | .error _ => s

/-- The function `_nss_ldap_parse_pw` of `passwd.c`. The state `s` holds the
record to fill, the caller's arena and the uninitialised local `tmpbuf`; the
result is the status returned and the state at the return. -/
def _nss_ldap_parse_pw (am : Attmap) (e : LDAPMessage) (s : ParseState) :
    nss_status × ParseState :=
  let r1 := parse_pw_passwd am e (parse_pw_init s)
  if r1.1 ≠ NSS_STATUS_SUCCESS then r1 else
  let r2 := parse_pw_name am e r1.2
  if r2.1 ≠ NSS_STATUS_SUCCESS then r2 else
  let r3 := parse_pw_uid am e r2.2
  if r3.1 ≠ NSS_STATUS_SUCCESS then r3 else
  let r4 := parse_pw_gid am e r3.2
  if r4.1 ≠ NSS_STATUS_SUCCESS then r4 else
  let r5 := parse_pw_gecos am e r4.2
  if r5.1 ≠ NSS_STATUS_SUCCESS then r5 else
  (NSS_STATUS_SUCCESS, parse_pw_shell am e (parse_pw_dir am e r5.2))

/-! ## Filter builders and the attribute list -/

/-- An argument of a `printf`-style call. -/
inductive FmtArg where
  | str (s : List Char)
  | int (n : Int)

/-- Decimal text of a C `int`, as `%d` prints it. -/
def decimal (z : Int) : List Char :=
  if z < 0 then '-' :: Nat.toDigits 10 z.natAbs else Nat.toDigits 10 z.natAbs

/-- The text a `printf`-style call produces for the directives used in this
file: `%s` prints a C string (up to its first NUL), `%d` a decimal `int`; every
other character is copied. -/
def vformat : List Char → List FmtArg → List Char
  | '%' :: 's' :: r, FmtArg.str s :: as => cstr s ++ vformat r as
  | '%' :: 'd' :: r, FmtArg.int n :: as => decimal n ++ vformat r as
  | c :: r, as => c :: vformat r as
  | [], _ => []

/-- The libc `snprintf`: the text is cut to `buflen - 1` characters (nothing is
stored when `buflen` is 0); the value returned is the length of the whole text. -/
def snprintf (buffer : List Char) (buflen : Nat) (format : List Char)
    (args : List FmtArg) : Int × List Char :=
  ((vformat format args).length,
    if buflen = 0 then buffer else (vformat format args).take (buflen - 1))

/-- Modelled from the spec: `mysnprintf` (declared in `common.h`, its body is not
in `passwd.c`) writes the formatted text into the caller-bounded buffer and
reports a failure if the result would not fit. Success is 0; the failure value
is the -1 that the header comments of its callers in `passwd.c` announce; the
buffer then keeps the text cut to `buflen - 1` characters. -/
def mysnprintf (buflen : Nat) (format : List Char) (args : List FmtArg) :
    Int × List Char :=
  if (vformat format args).length < buflen then (0, vformat format args)
  else (-1, (vformat format args).take (buflen - 1))

/-- The function `mkfilter_passwd_byname` of `passwd.c`. The escaping routine
`myldap_escape` (declared in `common.h`, its body is not in `passwd.c`) is a
parameter: it maps the source string and the size of the destination to the
escaped text, `none` standing for a non-zero return. `buffer` is the text the
caller's buffer holds; the result is the value returned and the text the
buffer holds afterwards. -/
def mkfilter_passwd_byname (myldap_escape : List Char → Nat → Option (List Char))
    (am : Attmap) (name : List Char) (buffer : List Char) (buflen : Nat) :
    Int × List Char :=
  match myldap_escape name 1024 with
  | none => (-1, buffer)
  | some buf2 =>
    mysnprintf buflen "(&(%s=%s)(%s=%s))".toList
      [FmtArg.str am.attmap_objectClass.toList,
       FmtArg.str am.attmap_passwd_objectClass.toList,
       FmtArg.str am.attmap_passwd_uid.toList,
       FmtArg.str buf2]

/-- The value a `uid_t` has when `%d` reads it as a 32-bit `int`. -/
def int_of_uid_t (uid : Nat) : Int :=
  if uid % 2 ^ 32 < 2 ^ 31 then (uid % 2 ^ 32 : Nat) else (uid % 2 ^ 32 : Nat) - 2 ^ 32

/-- The function `mkfilter_passwd_byuid` of `passwd.c`. -/
def mkfilter_passwd_byuid (am : Attmap) (uid : Nat) (buffer : List Char)
    (buflen : Nat) : Int × List Char :=
  snprintf buffer buflen "(&(%s=%s)(%s=%d))".toList
    [FmtArg.str am.attmap_objectClass.toList,
     FmtArg.str am.attmap_passwd_objectClass.toList,
     FmtArg.str am.attmap_passwd_uidNumber.toList,
     FmtArg.int (int_of_uid_t uid)]

/-- The function `mkfilter_passwd_all` of `passwd.c`. -/
def mkfilter_passwd_all (am : Attmap) (buflen : Nat) : Int × List Char :=
  mysnprintf buflen "(%s=%s)".toList
    [FmtArg.str am.attmap_objectClass.toList,
     FmtArg.str am.attmap_passwd_objectClass.toList]

/-- The function `passwd_attlst_init` of `passwd.c`: the ten slots of
`passwd_attlst` after the call (`none` is `NULL`). -/
def passwd_attlst_init (am : Attmap) : List (Option String) :=
  [some am.attmap_passwd_uid,
   some am.attmap_passwd_userPassword,
   some am.attmap_passwd_uidNumber,
   some am.attmap_passwd_gidNumber,
   some am.attmap_passwd_cn,
   some am.attmap_passwd_homeDirectory,
   some am.attmap_passwd_loginShell,
   some am.attmap_passwd_gecos,
   some am.attmap_objectClass,
   none]

/-- Modelled from the spec: a `myldap_escape` (declared in `common.h`, its body
is not in `passwd.c`) that escapes the name against the directory-filter
metacharacters, each of `*`, `(`, `)` and the backslash becoming a backslash and
two hexadecimal digits, and that fails when the output plus its terminator
would exceed the bounded scratch size. -/
def myldap_escape (src : List Char) (buflen : Nat) : Option (List Char) :=
  let escape_char : Char → List Char := fun c =>
    if c = '*' then "\\2a".toList
    else if c = '(' then "\\28".toList
    else if c = ')' then "\\29".toList
    else if c = Char.ofNat 92 then "\\5c".toList
    else [c]
  let out := ((cstr src).map escape_char).flatten
  if out.length < buflen then some out else none

/-- The by-name filter as the specification words it:
`(&(<objectClassAttr>=<entryClass>)(<uidAttr>=<escapedName>))`. -/
def byname_filter_text (objectClassAttr entryClass uidAttr escapedName : List Char) :
    List Char :=
  "(&(".toList ++ objectClassAttr ++ "=".toList ++ entryClass ++ ")(".toList
    ++ uidAttr ++ "=".toList ++ escapedName ++ "))".toList

/-! ## Request handlers -/

/-- The constants of `nslcd.h` that the handlers use (the header is not under
src/; the values are parameters). -/
structure NslcdConsts where
  NSLCD_VERSION : Int
  NSLCD_ACTION_PASSWD_BYNAME : Int
  NSLCD_ACTION_PASSWD_BYUID : Int
  NSLCD_ACTION_PASSWD_ALL : Int
  NSLCD_RESULT_SUCCESS : Int

/-- What a handler does that can be observed: values written on the stream
`fp` and calls into the directory collaborator (`getbyname`, `ent_context_init`,
`getent`, `enter`, `ent_context_release` and `leave` are the calls of the
`_nss_ldap_` functions of these names). -/
inductive Event where
  | write_int32 (n : Int)
  | write_string (p : Option Nat)
  | write_uid (n : Nat)
  | write_gid (n : Nat)
  | flush
  | getbyname (filter : List Char)
  | ent_context_init
  | getent
  | enter
  | ent_context_release
  | leave
  deriving DecidableEq, Repr

/-- The stream `fp` and the history of a handler run: `writable` is the number
of stream operations that will still succeed, `events` what has happened so
far, oldest first. -/
structure Chan where
  writable : Nat
  events : List Event

/-- Record a call of the collaborator. -/
def Chan.log (c : Chan) (ev : Event) : Chan :=
  { c with events := c.events ++ [ev] }

/-- Modelled from the spec: the `WRITE_...` macros (`nslcd-common.h`, not under
src/) write one typed value on the stream; a downstream write failure makes the
handler return -1 on the spot, otherwise the handler goes on with `k`. -/
def WRITE (ev : Event) (c : Chan) (k : Chan → Int × List Event) : Int × List Event :=
  match c.writable with
  | 0 => (-1, c.events)
  | n + 1 => k { writable := n, events := c.events ++ [ev] }

/-- Modelled from the spec: the macro `NSLCD_PASSWD` (`nslcd.h`, not under src/)
writes the record in the fixed field order name, password-placeholder, uid,
gid, display-name, home-directory, login-shell. -/
def NSLCD_PASSWD (result : passwd) (c : Chan) (k : Chan → Int × List Event) :
    Int × List Event :=
  WRITE (Event.write_string result.pw_name) c fun c =>
  WRITE (Event.write_string result.pw_passwd) c fun c =>
  WRITE (Event.write_uid result.pw_uid) c fun c =>
  WRITE (Event.write_gid result.pw_gid) c fun c =>
  WRITE (Event.write_string result.pw_gecos) c fun c =>
  WRITE (Event.write_string result.pw_dir) c fun c =>
  WRITE (Event.write_string result.pw_shell) c k

/-- The function `nslcd_passwd_byname` of `passwd.c`. `request` is the name that
`READ_STRING_BUF2` delivers (`none`: the macro returned -1), `filter` the text
the local buffer `filter` holds on entry, `fp` the number of stream operations
that will succeed; the search `_nss_ldap_getbyname` (not under src/) is a
parameter that maps the filter text and the attribute list to a result code and
a record. The result is the value returned and the events of the run. -/
def nslcd_passwd_byname (k : NslcdConsts)
    (myldap_escape : List Char → Nat → Option (List Char)) (am : Attmap)
    (_nss_ldap_getbyname : List Char → List (Option String) → Int × passwd)
    (request : Option (List Char)) (filter : List Char) (fp : Nat) : Int × List Event :=
  match request with
  | none => (-1, [])
  | some name =>
    let filter := (mkfilter_passwd_byname myldap_escape am name filter 1024).2
    let passwd_attlst := passwd_attlst_init am
    let c : Chan := { writable := fp, events := [Event.getbyname filter] }
    let retv := (_nss_ldap_getbyname filter passwd_attlst).1
    let result := (_nss_ldap_getbyname filter passwd_attlst).2
    WRITE (Event.write_int32 k.NSLCD_VERSION) c fun c =>
    WRITE (Event.write_int32 k.NSLCD_ACTION_PASSWD_BYNAME) c fun c =>
    WRITE (Event.write_int32 retv) c fun c =>
    if retv = k.NSLCD_RESULT_SUCCESS then
      NSLCD_PASSWD result c fun c =>
      WRITE Event.flush c fun c => (0, c.events)
    else
      WRITE Event.flush c fun c => (0, c.events)

/-- Lines 315-329 of `nslcd_passwd_all`: the loop over the results and what
follows it. The list holds the records of the fetches that succeed, `last` is
the code of the first fetch that does not. -/
def nslcd_passwd_all_loop (k : NslcdConsts) (last : Int) : List passwd → Chan → Int × List Event
  | [], c =>
    WRITE (Event.write_int32 last) (c.log Event.getent) fun c =>
    WRITE Event.flush c fun c =>
    (0, (((c.log Event.enter).log Event.ent_context_release).log Event.leave).events)
  | result :: rest, c =>
    WRITE (Event.write_int32 k.NSLCD_RESULT_SUCCESS) (c.log Event.getent) fun c =>
    NSLCD_PASSWD result c fun c =>
    nslcd_passwd_all_loop k last rest c

/-- The function `nslcd_passwd_all` of `passwd.c`. `context_ok` tells whether
`_nss_ldap_ent_context_init` returns a context (`false`: it returns `NULL`);
`fetches` and `last` are the outcomes of the successive `_nss_ldap_getent` calls
(after `nss2nslcd`), `fp` the number of stream operations that will succeed.
The result is the value returned and the events of the run. -/
def nslcd_passwd_all (k : NslcdConsts) (context_ok : Bool) (fetches : List passwd)
    (last : Int) (fp : Nat) : Int × List Event :=
  WRITE (Event.write_int32 k.NSLCD_VERSION) { writable := fp, events := [] } fun c =>
  WRITE (Event.write_int32 k.NSLCD_ACTION_PASSWD_ALL) c fun c =>
  if context_ok = false then (-1, (c.log Event.ent_context_init).events)
  else nslcd_passwd_all_loop k last fetches (c.log Event.ent_context_init)

/-- Sample values for the constants of `nslcd.h`. -/
def nslcd_consts : NslcdConsts where
  NSLCD_VERSION := 1
  NSLCD_ACTION_PASSWD_BYNAME := 1001
  NSLCD_ACTION_PASSWD_BYUID := 1002
  NSLCD_ACTION_PASSWD_ALL := 1008
  NSLCD_RESULT_SUCCESS := 0

/-! ## Sample inputs -/

/-- A record whose fields are all unset. -/
def passwd_unset : passwd :=
  { pw_name := none, pw_passwd := none, pw_uid := 0, pw_gid := 0,
    pw_gecos := none, pw_dir := none, pw_shell := none }

/-- A parser state over a zero-filled arena of `buflen` bytes starting at
address 0, with an unset record. -/
def fresh_state (buflen : Nat) : ParseState :=
  { pw := passwd_unset,
    arena := { mem := fun _ => NUL, buffer := 0, buflen := buflen },
    tmpbuf := fun _ => NUL }

/-- A directory entry with at most one value per attribute, given by the list
of its (attribute, value) pairs; `shadow` tells whether it carries the
shadowAccount class (and no other class is asked for in `passwd.c`). -/
def sample_entry (shadow : Bool) (attrs : List (String × String)) : LDAPMessage where
  has_class := fun c => shadow && c = "shadowAccount"
  values := fun attr =>
    match attrs.lookup attr with
    | some v => [v.toList]
    | none => []

/-- The entry of the concrete scenario: uid alice, uidNumber 1000, an empty
gidNumber, a home directory, a gecos and the password value, no shadow class. -/
def entry_alice : LDAPMessage :=
  sample_entry false
    [("uid", "alice"), ("userPassword", "\x7bcrypt\x7dxyz"), ("uidNumber", "1000"),
     ("gidNumber", ""), ("homeDirectory", "/home/alice"), ("gecos", "Alice A")]

/-- A complete shadow account: every attribute of the record has a value. -/
def entry_bob : LDAPMessage :=
  sample_entry true
    [("uid", "bob"), ("userPassword", "secret"), ("uidNumber", "1000"),
     ("gidNumber", "1000"), ("gecos", "Bob B"), ("homeDirectory", "/home/bob"),
     ("loginShell", "/bin/sh")]

/-- A shadow account with a cn but no gecos, no home directory and no login
shell, and with empty numeric ids. -/
def entry_carol : LDAPMessage :=
  sample_entry true
    [("uid", "carol"), ("userPassword", "secret"), ("uidNumber", ""),
     ("gidNumber", ""), ("cn", "Carol")]

/-- An account that lacks the uidNumber attribute. -/
def entry_dave : LDAPMessage :=
  sample_entry false
    [("uid", "dave"), ("userPassword", "pw"), ("gidNumber", "100"),
     ("gecos", "Dave D"), ("homeDirectory", "/home/dave"), ("loginShell", "/bin/sh")]

/-- An account that has neither a gecos nor a cn. -/
def entry_erin : LDAPMessage :=
  sample_entry false
    [("uid", "erin"), ("userPassword", "pw"), ("uidNumber", "1002"),
     ("gidNumber", "100"), ("homeDirectory", "/home/erin"), ("loginShell", "/bin/sh")]

/-- An entry that lacks the login-name attribute. -/
def entry_anon : LDAPMessage :=
  sample_entry false
    [("userPassword", "pw"), ("uidNumber", "1003"), ("gidNumber", "100"),
     ("gecos", "Nobody"), ("homeDirectory", "/"), ("loginShell", "/bin/sh")]

/-- A shadow account whose gecos is long and whose cn is short. -/
def entry_frank : LDAPMessage :=
  sample_entry true
    [("uid", "frank"), ("userPassword", "secret"), ("uidNumber", "1004"),
     ("gidNumber", "100"), ("gecos", "Franklin Delano R"), ("cn", "Fr"),
     ("homeDirectory", "/root"), ("loginShell", "/bin/sh")]

/-- An account whose first uidNumber value has eleven characters. -/
def entry_gina : LDAPMessage :=
  sample_entry false
    [("uid", "gina"), ("userPassword", "pw"), ("uidNumber", "12345678901"),
     ("gidNumber", "100"), ("gecos", "Gina G"), ("homeDirectory", "/home/gina"),
     ("loginShell", "/bin/sh")]

/-- An attribute table whose login-name attribute has a name of 250 characters. -/
def attmap_long : Attmap :=
  { attmap_rfc2307 with attmap_passwd_uid := String.mk (List.replicate 250 'u') }

/-- A search that finds an entry whatever the filter is. -/
def search_found (_filter : List Char) (_attlst : List (Option String)) : Int × passwd :=
  (0, { passwd_unset with pw_uid := 1000, pw_gid := 100 })

/-! ## Specification vocabulary -/

/-- The arena of `t` extends that of `s`: the cursor has not moved back and
every byte below the old cursor is unchanged. -/
def Grows (s t : ParseState) : Prop :=
  s.arena.buffer ≤ t.arena.buffer ∧ ∀ i, i < s.arena.buffer → t.arena.mem i = s.arena.mem i

/-- The pointer `f` is not `NULL` and points at the NUL-terminated string `str`,
which lies wholly below the cursor of the arena of `s`. -/
def StringField (s : ParseState) (f : Option Nat) (str : List Char) : Prop :=
  ∃ p, f = some p ∧ p + str.length < s.arena.buffer ∧ CStringAt s.arena.mem p str

/-! ## Memory lemmas -/

theorem cstr_nul_free (s : List Char) : NUL ∉ cstr s := by
  induction s with
  | nil => simp [cstr]
  | cons c cs ih =>
    by_cases h : c = NUL
    · simp [cstr, h]
    · simp only [cstr, if_neg h, List.mem_cons, not_or]
      exact ⟨fun h2 => h h2.symm, ih⟩

theorem cstr_of_nul_free (s : List Char) (h : NUL ∉ s) : cstr s = s := by
  induction s with
  | nil => rfl
  | cons c cs ih =>
    simp only [List.mem_cons, not_or] at h
    have hc : c ≠ NUL := fun h2 => h.1 h2.symm
    simp [cstr, hc, ih h.2]

theorem write_cstring_below (mem : Mem) (p : Nat) (s : List Char) (i : Nat) (h : i < p) :
    write_cstring mem p s i = mem i := by
  induction s generalizing mem p with
  | nil =>
    have : i ≠ p := by omega
    simp [write_cstring, poke, this]
  | cons c cs ih =>
    have hne : i ≠ p := by omega
    rw [write_cstring, ih (poke mem p c) (p + 1) (by omega)]
    simp [poke, hne]

theorem write_cstring_above (mem : Mem) (p : Nat) (s : List Char) (i : Nat)
    (h : p + s.length < i) : write_cstring mem p s i = mem i := by
  induction s generalizing mem p with
  | nil =>
    have : i ≠ p := by simp at h; omega
    simp [write_cstring, poke, this]
  | cons c cs ih =>
    have hne : i ≠ p := by omega
    have hlt : p + 1 + cs.length < i := by simp at h; omega
    rw [write_cstring, ih (poke mem p c) (p + 1) hlt]
    simp [poke, hne]

theorem CStringAt_write_cstring (mem : Mem) (p : Nat) (s : List Char) (h : NUL ∉ s) :
    CStringAt (write_cstring mem p s) p s := by
  induction s generalizing mem p with
  | nil => simp [CStringAt, write_cstring, poke]
  | cons c cs ih =>
    simp only [List.mem_cons, not_or] at h
    refine ⟨fun h2 => h.1 h2.symm, ?_, ih _ _ h.2⟩
    rw [write_cstring, write_cstring_below _ _ _ _ (by omega)]
    simp [poke]

theorem CStringAt_of_agree (mem mem2 : Mem) (p : Nat) (s : List Char)
    (hag : ∀ i, p ≤ i → i ≤ p + s.length → mem2 i = mem i) (h : CStringAt mem p s) :
    CStringAt mem2 p s := by
  induction s generalizing p with
  | nil =>
    simp only [CStringAt] at h ⊢
    rw [hag p (le_refl _) (by simp)]; exact h
  | cons c cs ih =>
    obtain ⟨h1, h2, h3⟩ := h
    refine ⟨h1, ?_, ih (p + 1) ?_ h3⟩
    · rw [hag p (le_refl _) (by simp)]; exact h2
    · intro i hi1 hi2
      exact hag i (by omega) (by simp; omega)

theorem read_cstring_of_CStringAt (mem : Mem) (p n : Nat) (s : List Char)
    (h : CStringAt mem p s) (hn : s.length < n) : read_cstring mem n p = s := by
  induction s generalizing p n with
  | nil =>
    cases n with
    | zero => simp at hn
    | succ n =>
      simp only [CStringAt] at h
      simp [read_cstring, h]
  | cons c cs ih =>
    obtain ⟨h1, h2, h3⟩ := h
    cases n with
    | zero => simp at hn
    | succ n =>
      have hn2 : cs.length < n := by simp at hn; omega
      simp [read_cstring, h2, h1, ih (p + 1) n h3 hn2]

theorem Grows.refl (s : ParseState) : Grows s s := ⟨le_refl _, fun _ _ => rfl⟩

theorem Grows.trans {s t u : ParseState} (h1 : Grows s t) (h2 : Grows t u) : Grows s u :=
  ⟨le_trans h1.1 h2.1, fun i hi => by
    rw [h2.2 i (lt_of_lt_of_le hi h1.1), h1.2 i hi]⟩

theorem StringField.mono {s t : ParseState} {f : Option Nat} {str : List Char}
    (h : StringField s f str) (hg : Grows s t) : StringField t f str := by
  obtain ⟨p, hp, hlt, hc⟩ := h
  refine ⟨p, hp, lt_of_lt_of_le hlt hg.1, ?_⟩
  exact CStringAt_of_agree _ _ _ _ (fun i _ hi => hg.2 i (by omega)) hc

/-! ## The extraction helpers -/

theorem assign_attrval_ok {e : LDAPMessage} {attr : String} {a b : Arena} {p : Nat}
    (h : _nss_ldap_assign_attrval e attr a = .ok (p, b)) :
    ∃ v vs, e.values attr = v :: vs ∧ strlen v + 1 ≤ a.buflen ∧ p = a.buffer ∧
      b = { mem := write_cstring a.mem a.buffer (cstr v),
            buffer := a.buffer + (strlen v + 1),
            buflen := a.buflen - (strlen v + 1) } := by
  unfold _nss_ldap_assign_attrval at h
  split at h
  · cases h
  · rename_i v vs hv
    split at h
    · cases h
    · rename_i hlt
      injection h with h
      injection h with h1 h2
      exact ⟨v, vs, hv, by omega, h1.symm, h2.symm⟩

theorem assign_attrval_error {e : LDAPMessage} {attr : String} {a : Arena} {st : nss_status}
    (h : _nss_ldap_assign_attrval e attr a = .error st) :
    (st = NSS_STATUS_NOTFOUND ∧ e.values attr = []) ∨
    (st = NSS_STATUS_TRYAGAIN ∧ ∃ v vs, e.values attr = v :: vs ∧ a.buflen < strlen v + 1) := by
  unfold _nss_ldap_assign_attrval at h
  split at h
  · rename_i hv
    injection h with h
    exact Or.inl ⟨h.symm, hv⟩
  · rename_i v vs hv
    split at h
    · rename_i hlt
      injection h with h
      exact Or.inr ⟨h.symm, v, vs, hv, hlt⟩
    · cases h

theorem assign_attrval_error_ne {e : LDAPMessage} {attr : String} {a : Arena} {st : nss_status}
    (h : _nss_ldap_assign_attrval e attr a = .error st) : st ≠ NSS_STATUS_SUCCESS := by
  rcases assign_attrval_error h with ⟨h1, _⟩ | ⟨h1, _⟩ <;> simp [h1]

theorem assign_attrval_absent {e : LDAPMessage} {attr : String} (a : Arena)
    (h : e.values attr = []) :
    _nss_ldap_assign_attrval e attr a = .error NSS_STATUS_NOTFOUND := by
  simp [_nss_ldap_assign_attrval, h]

theorem assign_attrval_carves {e : LDAPMessage} {attr : String} {a b : Arena} {p : Nat}
    (h : _nss_ldap_assign_attrval e attr a = .ok (p, b)) (s t : ParseState)
    (hs : s.arena = a) (ht : t.arena = b) :
    Grows s t ∧ ∃ v vs, e.values attr = v :: vs ∧ p = s.arena.buffer ∧
      t.arena.buffer = s.arena.buffer + (strlen v + 1) ∧
      t.arena.buflen + (strlen v + 1) = s.arena.buflen ∧
      StringField t (some p) (cstr v) := by
  obtain ⟨v, vs, hv, hle, hp, hb⟩ := assign_attrval_ok h
  subst hs hp
  rw [hb] at ht
  refine ⟨⟨by rw [ht]; simp, fun i hi => by rw [ht]; exact write_cstring_below _ _ _ _ hi⟩,
    v, vs, hv, rfl, by rw [ht], by rw [ht]; simp; omega, ?_⟩
  refine ⟨_, rfl, by rw [ht]; simp [strlen], ?_⟩
  rw [ht]
  exact CStringAt_write_cstring _ _ _ (cstr_nul_free v)

theorem assign_emptystring_carves {a b : Arena} {p : Nat}
    (h : _nss_ldap_assign_emptystring a = .ok (p, b)) (s t : ParseState)
    (hs : s.arena = a) (ht : t.arena = b) :
    Grows s t ∧ p = s.arena.buffer ∧ 2 ≤ s.arena.buflen ∧
      t.arena.buffer = s.arena.buffer + 1 ∧ StringField t (some p) [] := by
  unfold _nss_ldap_assign_emptystring at h
  split at h
  · cases h
  · rename_i hlt
    injection h with h
    injection h with h1 h2
    subst hs h1
    rw [← h2] at ht
    refine ⟨⟨by rw [ht]; simp, fun i hi => ?_⟩, rfl, by omega, by rw [ht], _, rfl, by rw [ht]; simp, ?_⟩
    · rw [ht]
      have : i ≠ s.arena.buffer := by omega
      simp [poke, this]
    · rw [ht]; simp [CStringAt, poke]

/-! ## The steps of the parser -/

theorem parse_pw_success {am : Attmap} {e : LDAPMessage} {s : ParseState}
    (h : (_nss_ldap_parse_pw am e s).1 = NSS_STATUS_SUCCESS) :
    ∃ s1 s2 s3 s4 s5,
      parse_pw_passwd am e (parse_pw_init s) = (NSS_STATUS_SUCCESS, s1) ∧
      parse_pw_name am e s1 = (NSS_STATUS_SUCCESS, s2) ∧
      parse_pw_uid am e s2 = (NSS_STATUS_SUCCESS, s3) ∧
      parse_pw_gid am e s3 = (NSS_STATUS_SUCCESS, s4) ∧
      parse_pw_gecos am e s4 = (NSS_STATUS_SUCCESS, s5) ∧
      (_nss_ldap_parse_pw am e s).2 = parse_pw_shell am e (parse_pw_dir am e s5) := by
  unfold _nss_ldap_parse_pw at h ⊢
  simp only [] at h ⊢
  split_ifs at h ⊢ with h1 h2 h3 h4 h5
  · exact absurd h h1
  · exact absurd h h2
  · exact absurd h h3
  · exact absurd h h4
  · exact absurd h h5
  · simp only [ne_eq, not_not] at h1 h2 h3 h4 h5
    exact ⟨_, _, _, _, _, Prod.ext h1 rfl, Prod.ext h2 rfl, Prod.ext h3 rfl, Prod.ext h4 rfl,
      Prod.ext h5 rfl, rfl⟩

theorem parse_pw_passwd_shadow {am : Attmap} {e : LDAPMessage} (s : ParseState)
    (hsh : has_objectclass e "shadowAccount" = true) :
    parse_pw_passwd am e s =
      if s.arena.buflen < 3 then (NSS_STATUS_TRYAGAIN, s)
      else (NSS_STATUS_SUCCESS,
        { s with
          pw := { s.pw with pw_passwd := some s.arena.buffer }
          arena :=
            { mem := write_cstring s.arena.mem s.arena.buffer ['x'],
              buffer := s.arena.buffer + 2,
              buflen := s.arena.buflen - 2 } }) := by
  simp [parse_pw_passwd, hsh]

theorem parse_pw_passwd_frame (am : Attmap) (e : LDAPMessage) (s : ParseState) :
    Grows s (parse_pw_passwd am e s).2 ∧
    (parse_pw_passwd am e s).2.tmpbuf = s.tmpbuf ∧
    (parse_pw_passwd am e s).2.pw =
      { s.pw with pw_passwd := (parse_pw_passwd am e s).2.pw.pw_passwd } := by
  unfold parse_pw_passwd
  split
  · split
    · exact ⟨Grows.refl s, rfl, rfl⟩
    · refine ⟨⟨by simp, fun i hi => ?_⟩, rfl, rfl⟩
      exact write_cstring_below _ _ _ _ hi
  · split
    · exact ⟨Grows.refl s, rfl, rfl⟩
    · rename_i p a h
      exact ⟨(assign_attrval_carves h s _ rfl rfl).1, rfl, rfl⟩

theorem parse_pw_name_frame (am : Attmap) (e : LDAPMessage) (s : ParseState) :
    Grows s (parse_pw_name am e s).2 ∧
    (parse_pw_name am e s).2.tmpbuf = s.tmpbuf ∧
    (parse_pw_name am e s).2.pw =
      { s.pw with pw_name := (parse_pw_name am e s).2.pw.pw_name } := by
  unfold parse_pw_name
  split
  · exact ⟨Grows.refl s, rfl, rfl⟩
  · rename_i p a h
    exact ⟨(assign_attrval_carves h s _ rfl rfl).1, rfl, rfl⟩

theorem parse_pw_uid_frame (am : Attmap) (e : LDAPMessage) (s : ParseState) :
    (parse_pw_uid am e s).2.arena = s.arena ∧
    (parse_pw_uid am e s).2.pw =
      { s.pw with pw_uid := (parse_pw_uid am e s).2.pw.pw_uid } := by
  unfold parse_pw_uid
  split
  · exact ⟨rfl, rfl⟩
  · exact ⟨rfl, rfl⟩

theorem parse_pw_gid_frame (am : Attmap) (e : LDAPMessage) (s : ParseState) :
    (parse_pw_gid am e s).2.arena = s.arena ∧
    (parse_pw_gid am e s).2.pw =
      { s.pw with pw_gid := (parse_pw_gid am e s).2.pw.pw_gid } := by
  unfold parse_pw_gid
  split
  · exact ⟨rfl, rfl⟩
  · exact ⟨rfl, rfl⟩

theorem parse_pw_gecos_frame (am : Attmap) (e : LDAPMessage) (s : ParseState) :
    Grows s (parse_pw_gecos am e s).2 ∧
    (parse_pw_gecos am e s).2.tmpbuf = s.tmpbuf ∧
    (parse_pw_gecos am e s).2.pw =
      { s.pw with pw_gecos := (parse_pw_gecos am e s).2.pw.pw_gecos } := by
  unfold parse_pw_gecos
  split
  · rename_i p a h
    exact ⟨(assign_attrval_carves h s _ rfl rfl).1, rfl, rfl⟩
  · split
    · exact ⟨Grows.refl s, rfl, rfl⟩
    · rename_i p a h
      exact ⟨(assign_attrval_carves h s _ rfl rfl).1, rfl, rfl⟩

theorem parse_pw_dir_frame (am : Attmap) (e : LDAPMessage) (s : ParseState) :
    Grows s (parse_pw_dir am e s) ∧
    (parse_pw_dir am e s).tmpbuf = s.tmpbuf ∧
    (parse_pw_dir am e s).pw =
      { s.pw with pw_dir := (parse_pw_dir am e s).pw.pw_dir } := by
  unfold parse_pw_dir
  split
  · rename_i p a h
    exact ⟨(assign_attrval_carves h s _ rfl rfl).1, rfl, rfl⟩
  · split
    · rename_i p a h
      exact ⟨(assign_emptystring_carves h s _ rfl rfl).1, rfl, rfl⟩
    · exact ⟨Grows.refl s, rfl, rfl⟩

theorem parse_pw_shell_frame (am : Attmap) (e : LDAPMessage) (s : ParseState) :
    Grows s (parse_pw_shell am e s) ∧
    (parse_pw_shell am e s).tmpbuf = s.tmpbuf ∧
    (parse_pw_shell am e s).pw =
      { s.pw with pw_shell := (parse_pw_shell am e s).pw.pw_shell } := by
  unfold parse_pw_shell
  split
  · rename_i p a h
    exact ⟨(assign_attrval_carves h s _ rfl rfl).1, rfl, rfl⟩
  · split
    · rename_i p a h
      exact ⟨(assign_emptystring_carves h s _ rfl rfl).1, rfl, rfl⟩
    · exact ⟨Grows.refl s, rfl, rfl⟩

theorem Grows.of_arena_eq {s t : ParseState} (h : t.arena = s.arena) : Grows s t :=
  ⟨by rw [h], fun i _ => by rw [h]⟩

/-- The numeric value the uid and gid steps store for the extracted text. -/
theorem tmpbuf_value (mem : Mem) (v : List Char) (h : strlen v + 1 ≤ sizeof_tmpbuf - 1) :
    (write_cstring mem 0 (cstr v) 0 = NUL ↔ cstr v = []) ∧
    read_cstring (write_cstring mem 0 (cstr v)) (sizeof_tmpbuf - 0) 0 = cstr v := by
  have hc := CStringAt_write_cstring mem 0 (cstr v) (cstr_nul_free v)
  refine ⟨?_, read_cstring_of_CStringAt _ _ _ _ hc (by simp [strlen] at h ⊢; omega)⟩
  cases hv : cstr v with
  | nil => simp [write_cstring, poke]
  | cons c cs =>
    rw [hv] at hc
    obtain ⟨h1, h2, _⟩ := hc
    simp [h2, h1]

theorem parse_pw_uid_eq (am : Attmap) (e : LDAPMessage) (s : ParseState) :
    parse_pw_uid am e s =
      match e.values am.attmap_passwd_uidNumber with
      | [] => (NSS_STATUS_NOTFOUND, s)
      | v :: _ =>
        if sizeof_tmpbuf - 1 < strlen v + 1 then (NSS_STATUS_TRYAGAIN, s)
        else (NSS_STATUS_SUCCESS,
          { s with
            tmpbuf := write_cstring s.tmpbuf 0 (cstr v)
            pw := { s.pw with
              pw_uid := if cstr v = [] then to_uid_t UID_NOBODY
                        else to_uid_t (atol (cstr v)) } }) := by
  cases h : e.values am.attmap_passwd_uidNumber with
  | nil => simp [parse_pw_uid, _nss_ldap_assign_attrval, h]
  | cons v vs =>
    by_cases hlt : sizeof_tmpbuf - 1 < strlen v + 1
    · simp [parse_pw_uid, _nss_ldap_assign_attrval, h, hlt]
    · have hv := tmpbuf_value s.tmpbuf v (by omega)
      by_cases hz : cstr v = []
      · have hnul : write_cstring s.tmpbuf 0 [] 0 = NUL := by simp [write_cstring, poke]
        simp [parse_pw_uid, _nss_ldap_assign_attrval, h, hlt, hz, hnul]
      · have hnz : ¬ write_cstring s.tmpbuf 0 (cstr v) 0 = NUL := fun h2 => hz (hv.1.mp h2)
        have hr := hv.2
        simp only [Nat.sub_zero] at hr
        simp [parse_pw_uid, _nss_ldap_assign_attrval, h, hlt, hz, hnz, hr]

theorem parse_pw_gid_eq (am : Attmap) (e : LDAPMessage) (s : ParseState) :
    parse_pw_gid am e s =
      match e.values am.attmap_passwd_gidNumber with
      | [] => (NSS_STATUS_NOTFOUND, s)
      | v :: _ =>
        if sizeof_tmpbuf - 1 < strlen v + 1 then (NSS_STATUS_TRYAGAIN, s)
        else (NSS_STATUS_SUCCESS,
          { s with
            tmpbuf := write_cstring s.tmpbuf 0 (cstr v)
            pw := { s.pw with
              pw_gid := if cstr v = [] then to_gid_t GID_NOBODY
                        else to_gid_t (atol (cstr v)) } }) := by
  cases h : e.values am.attmap_passwd_gidNumber with
  | nil => simp [parse_pw_gid, _nss_ldap_assign_attrval, h]
  | cons v vs =>
    by_cases hlt : sizeof_tmpbuf - 1 < strlen v + 1
    · simp [parse_pw_gid, _nss_ldap_assign_attrval, h, hlt]
    · have hv := tmpbuf_value s.tmpbuf v (by omega)
      by_cases hz : cstr v = []
      · have hnul : write_cstring s.tmpbuf 0 [] 0 = NUL := by simp [write_cstring, poke]
        simp [parse_pw_gid, _nss_ldap_assign_attrval, h, hlt, hz, hnul]
      · have hnz : ¬ write_cstring s.tmpbuf 0 (cstr v) 0 = NUL := fun h2 => hz (hv.1.mp h2)
        have hr := hv.2
        simp only [Nat.sub_zero] at hr
        simp [parse_pw_gid, _nss_ldap_assign_attrval, h, hlt, hz, hnz, hr]


/-! ## Later steps keep what earlier steps stored -/

theorem parse_pw_tail_frame (am : Attmap) (e : LDAPMessage) (s5 : ParseState) :
    Grows s5 (parse_pw_shell am e (parse_pw_dir am e s5)) ∧
    (parse_pw_shell am e (parse_pw_dir am e s5)).pw.pw_name = s5.pw.pw_name ∧
    (parse_pw_shell am e (parse_pw_dir am e s5)).pw.pw_passwd = s5.pw.pw_passwd ∧
    (parse_pw_shell am e (parse_pw_dir am e s5)).pw.pw_uid = s5.pw.pw_uid ∧
    (parse_pw_shell am e (parse_pw_dir am e s5)).pw.pw_gid = s5.pw.pw_gid ∧
    (parse_pw_shell am e (parse_pw_dir am e s5)).pw.pw_gecos = s5.pw.pw_gecos := by
  obtain ⟨g1, _, p1⟩ := parse_pw_dir_frame am e s5
  obtain ⟨g2, _, p2⟩ := parse_pw_shell_frame am e (parse_pw_dir am e s5)
  refine ⟨g1.trans g2, ?_, ?_, ?_, ?_, ?_⟩
  · rw [p2]; simp only []; rw [p1]
  · rw [p2]; simp only []; rw [p1]
  · rw [p2]; simp only []; rw [p1]
  · rw [p2]; simp only []; rw [p1]
  · rw [p2]; simp only []; rw [p1]

/-- On a success every step succeeded, each later step kept the arena below
the cursor it found, and each field of the record still has the value its own
step gave it. -/
theorem parse_pw_success_frames {am : Attmap} {e : LDAPMessage} {s : ParseState}
    (h : (_nss_ldap_parse_pw am e s).1 = NSS_STATUS_SUCCESS) :
    ∃ s1 s2 s3 s4 s5,
      parse_pw_passwd am e (parse_pw_init s) = (NSS_STATUS_SUCCESS, s1) ∧
      parse_pw_name am e s1 = (NSS_STATUS_SUCCESS, s2) ∧
      parse_pw_uid am e s2 = (NSS_STATUS_SUCCESS, s3) ∧
      parse_pw_gid am e s3 = (NSS_STATUS_SUCCESS, s4) ∧
      parse_pw_gecos am e s4 = (NSS_STATUS_SUCCESS, s5) ∧
      (_nss_ldap_parse_pw am e s).2 = parse_pw_shell am e (parse_pw_dir am e s5) ∧
      Grows s1 (_nss_ldap_parse_pw am e s).2 ∧
      Grows s2 (_nss_ldap_parse_pw am e s).2 ∧
      Grows s5 (_nss_ldap_parse_pw am e s).2 ∧
      (_nss_ldap_parse_pw am e s).2.pw.pw_passwd = s1.pw.pw_passwd ∧
      (_nss_ldap_parse_pw am e s).2.pw.pw_name = s2.pw.pw_name ∧
      (_nss_ldap_parse_pw am e s).2.pw.pw_uid = s3.pw.pw_uid ∧
      (_nss_ldap_parse_pw am e s).2.pw.pw_gid = s4.pw.pw_gid ∧
      (_nss_ldap_parse_pw am e s).2.pw.pw_gecos = s5.pw.pw_gecos := by
  obtain ⟨s1, s2, s3, s4, s5, h1, h2, h3, h4, h5, h6⟩ := parse_pw_success h
  obtain ⟨g2, _, p2⟩ := parse_pw_name_frame am e s1
  obtain ⟨a3, p3⟩ := parse_pw_uid_frame am e s2
  obtain ⟨a4, p4⟩ := parse_pw_gid_frame am e s3
  obtain ⟨g5, _, p5⟩ := parse_pw_gecos_frame am e s4
  obtain ⟨g6, q6n, q6p, q6u, q6g, q6c⟩ := parse_pw_tail_frame am e s5
  rw [h2] at g2 p2
  rw [h3] at a3 p3
  rw [h4] at a4 p4
  rw [h5] at g5 p5
  simp only [] at g2 p2 a3 p3 a4 p4 g5 p5
  have g25 : Grows s2 s5 := (Grows.of_arena_eq a3).trans ((Grows.of_arena_eq a4).trans g5)
  refine ⟨s1, s2, s3, s4, s5, h1, h2, h3, h4, h5, h6, ?_, ?_, ?_, ?_, ?_, ?_, ?_, ?_⟩
  · rw [h6]; exact g2.trans (g25.trans g6)
  · rw [h6]; exact g25.trans g6
  · rw [h6]; exact g6
  · rw [h6, q6p, p5]; simp only []; rw [p4]; simp only []; rw [p3]; simp only []; rw [p2]
  · rw [h6, q6n, p5]; simp only []; rw [p4]; simp only []; rw [p3]
  · rw [h6, q6u, p5]; simp only []; rw [p4]
  · rw [h6, q6g, p5]
  · rw [h6, q6c]

theorem assign_attrval_congr {e e2 : LDAPMessage} {attr : String} (a : Arena)
    (h : e2.values attr = e.values attr) :
    _nss_ldap_assign_attrval e2 attr a = _nss_ldap_assign_attrval e attr a := by
  simp only [_nss_ldap_assign_attrval, h]

/-! ## C1 -/

/-- C1: for every entry that carries the shadowAccount class and every state on
which `_nss_ldap_parse_pw` returns success, `pw_passwd` points at exactly the
string "x", whatever the attributes of the entry hold; on that path the password
step is the same for all such entries and attribute tables, so the userPassword
attribute is never read. -/
theorem parse_pw_shadow_passwd (am : Attmap) (e : LDAPMessage) (s : ParseState)
    (hsh : has_objectclass e "shadowAccount" = true) :
    ((_nss_ldap_parse_pw am e s).1 = NSS_STATUS_SUCCESS →
      StringField (_nss_ldap_parse_pw am e s).2
        (_nss_ldap_parse_pw am e s).2.pw.pw_passwd ['x']) ∧
    (∀ (am2 : Attmap) (e2 : LDAPMessage) (t : ParseState),
      has_objectclass e2 "shadowAccount" = true →
      parse_pw_passwd am2 e2 t = parse_pw_passwd am e t) ∧
    (∀ e2 : LDAPMessage, has_objectclass e2 "shadowAccount" = true →
      (∀ attr ∈ [am.attmap_passwd_uid, am.attmap_passwd_uidNumber,
          am.attmap_passwd_gidNumber, am.attmap_passwd_gecos, am.attmap_passwd_cn,
          am.attmap_passwd_homeDirectory, am.attmap_passwd_loginShell],
        e2.values attr = e.values attr) →
      _nss_ldap_parse_pw am e2 s = _nss_ldap_parse_pw am e s) := by
  refine ⟨?_, ?_, ?_⟩
  · intro h
    obtain ⟨s1, s2, s3, s4, s5, h1, _, _, _, _, _, g, _, _, hp, _⟩ := parse_pw_success_frames h
    rw [hp]
    refine StringField.mono ?_ g
    rw [parse_pw_passwd_shadow _ hsh] at h1
    split_ifs at h1 with hlt
    · cases h1
    · injection h1 with _ h1
      subst h1
      refine ⟨_, rfl, by simp, ?_⟩
      exact CStringAt_write_cstring _ _ _ (by decide)
  · intro am2 e2 t h2
    rw [parse_pw_passwd_shadow t h2, parse_pw_passwd_shadow t hsh]
  · intro e2 h2 hag
    have e1 : parse_pw_passwd am e2 = parse_pw_passwd am e := by
      funext t
      rw [parse_pw_passwd_shadow t h2, parse_pw_passwd_shadow t hsh]
    have e2n : parse_pw_name am e2 = parse_pw_name am e := by
      funext t
      unfold parse_pw_name
      rw [assign_attrval_congr t.arena (hag am.attmap_passwd_uid (by simp))]
    have e3 : parse_pw_uid am e2 = parse_pw_uid am e := by
      funext t
      unfold parse_pw_uid
      rw [assign_attrval_congr _ (hag am.attmap_passwd_uidNumber (by simp))]
    have e4 : parse_pw_gid am e2 = parse_pw_gid am e := by
      funext t
      unfold parse_pw_gid
      rw [assign_attrval_congr _ (hag am.attmap_passwd_gidNumber (by simp))]
    have e5 : parse_pw_gecos am e2 = parse_pw_gecos am e := by
      funext t
      unfold parse_pw_gecos
      rw [assign_attrval_congr t.arena (hag am.attmap_passwd_gecos (by simp)),
        assign_attrval_congr t.arena (hag am.attmap_passwd_cn (by simp))]
    have e6 : parse_pw_dir am e2 = parse_pw_dir am e := by
      funext t
      unfold parse_pw_dir
      rw [assign_attrval_congr t.arena (hag am.attmap_passwd_homeDirectory (by simp))]
    have e7 : parse_pw_shell am e2 = parse_pw_shell am e := by
      funext t
      unfold parse_pw_shell
      rw [assign_attrval_congr t.arena (hag am.attmap_passwd_loginShell (by simp))]
    simp only [_nss_ldap_parse_pw, e1, e2n, e3, e4, e5, e6, e7]

theorem parse_pw_shadow_passwd_witness :
    has_objectclass entry_bob "shadowAccount" = true ∧
    entry_bob.values "userPassword" = ["secret".toList] ∧
    (_nss_ldap_parse_pw attmap_rfc2307 entry_bob (fresh_state 1024)).1 = NSS_STATUS_SUCCESS ∧
    StringField (_nss_ldap_parse_pw attmap_rfc2307 entry_bob (fresh_state 1024)).2
      (_nss_ldap_parse_pw attmap_rfc2307 entry_bob (fresh_state 1024)).2.pw.pw_passwd ['x'] :=
  ⟨by decide, by decide, by decide,
    (parse_pw_shadow_passwd attmap_rfc2307 entry_bob (fresh_state 1024) (by decide)).1
      (by decide)⟩


/-! ## C2 -/

/-- C2: evaluation at the failing input. The complete record of `entry_bob`
takes 30 bytes of a large arena; on a 14-byte arena `_nss_ldap_parse_pw` does not
report out-of-space but returns success, with `pw_dir` an empty string (the home
directory /home/bob did not fit) and `pw_shell` left unset. -/
theorem parse_pw_small_arena_not_tryagain :
    (_nss_ldap_parse_pw attmap_rfc2307 entry_bob (fresh_state 1024)).1 = NSS_STATUS_SUCCESS ∧
    (_nss_ldap_parse_pw attmap_rfc2307 entry_bob (fresh_state 1024)).2.arena.buflen + 30 = 1024 ∧
    entry_bob.values "homeDirectory" = ["/home/bob".toList] ∧
    entry_bob.values "loginShell" = ["/bin/sh".toList] ∧
    (_nss_ldap_parse_pw attmap_rfc2307 entry_bob (fresh_state 14)).1 = NSS_STATUS_SUCCESS ∧
    (_nss_ldap_parse_pw attmap_rfc2307 entry_bob (fresh_state 14)).2.pw.pw_dir = some 12 ∧
    (_nss_ldap_parse_pw attmap_rfc2307 entry_bob (fresh_state 14)).2.arena.mem 12 = NUL ∧
    (_nss_ldap_parse_pw attmap_rfc2307 entry_bob (fresh_state 14)).2.pw.pw_shell = none := by
  refine ⟨by decide, by decide, by decide, by decide, by decide, by decide, by decide, by decide⟩

/-! ## C3 -/

/-- C3: evaluation at the failing input. `entry_carol` has neither a home
directory nor a login shell; on a 14-byte arena nothing is left after the cn
has been stored, `_nss_ldap_assign_emptystring` reports out-of-space, the status
is discarded and `_nss_ldap_parse_pw` returns success with `pw_dir` and
`pw_shell` still unset. -/
theorem parse_pw_dir_shell_unset :
    entry_carol.values "homeDirectory" = [] ∧
    entry_carol.values "loginShell" = [] ∧
    (_nss_ldap_parse_pw attmap_rfc2307 entry_carol (fresh_state 14)).1 = NSS_STATUS_SUCCESS ∧
    (_nss_ldap_parse_pw attmap_rfc2307 entry_carol (fresh_state 14)).2.arena.buflen = 0 ∧
    (_nss_ldap_parse_pw attmap_rfc2307 entry_carol (fresh_state 14)).2.pw.pw_dir = none ∧
    (_nss_ldap_parse_pw attmap_rfc2307 entry_carol (fresh_state 14)).2.pw.pw_shell = none := by
  refine ⟨by decide, by decide, by decide, by decide, by decide, by decide⟩

/-! ## C4 -/

/-- C4: for every entry whose uidNumber attribute has the empty string as its
first value, the uid step succeeds from every state and a successful
`_nss_ldap_parse_pw` leaves `pw_uid` equal to `UID_NOBODY` (as a `uid_t`);
likewise an empty gidNumber value makes the gid step succeed and yields
`pw_gid` equal to `GID_NOBODY`. -/
theorem parse_pw_empty_id_nobody (am : Attmap) (e : LDAPMessage) (s : ParseState) :
    (∀ vs, e.values am.attmap_passwd_uidNumber = [] :: vs →
      (∀ t, (parse_pw_uid am e t).1 = NSS_STATUS_SUCCESS) ∧
      ((_nss_ldap_parse_pw am e s).1 = NSS_STATUS_SUCCESS →
        (_nss_ldap_parse_pw am e s).2.pw.pw_uid = to_uid_t UID_NOBODY)) ∧
    (∀ vs, e.values am.attmap_passwd_gidNumber = [] :: vs →
      (∀ t, (parse_pw_gid am e t).1 = NSS_STATUS_SUCCESS) ∧
      ((_nss_ldap_parse_pw am e s).1 = NSS_STATUS_SUCCESS →
        (_nss_ldap_parse_pw am e s).2.pw.pw_gid = to_gid_t GID_NOBODY)) := by
  constructor
  · intro vs hv
    have hstep : ∀ t, parse_pw_uid am e t = (NSS_STATUS_SUCCESS,
        { t with
          tmpbuf := write_cstring t.tmpbuf 0 []
          pw := { t.pw with pw_uid := to_uid_t UID_NOBODY } }) := by
      intro t
      rw [parse_pw_uid_eq, hv]
      simp [strlen, cstr, sizeof_tmpbuf, sizeof_uid_t]
    refine ⟨fun t => by rw [hstep t], fun h => ?_⟩
    obtain ⟨s1, s2, s3, s4, s5, _, _, h3, _, _, _, _, _, _, _, _, hu, _, _⟩ :=
      parse_pw_success_frames h
    rw [hu]
    rw [hstep s2] at h3
    injection h3 with _ h3
    rw [← h3]
  · intro vs hv
    have hstep : ∀ t, parse_pw_gid am e t = (NSS_STATUS_SUCCESS,
        { t with
          tmpbuf := write_cstring t.tmpbuf 0 []
          pw := { t.pw with pw_gid := to_gid_t GID_NOBODY } }) := by
      intro t
      rw [parse_pw_gid_eq, hv]
      simp [strlen, cstr, sizeof_tmpbuf, sizeof_uid_t]
    refine ⟨fun t => by rw [hstep t], fun h => ?_⟩
    obtain ⟨s1, s2, s3, s4, s5, _, _, _, h4, _, _, _, _, _, _, _, _, hg, _⟩ :=
      parse_pw_success_frames h
    rw [hg]
    rw [hstep s3] at h4
    injection h4 with _ h4
    rw [← h4]

theorem parse_pw_empty_id_nobody_witness :
    entry_carol.values "uidNumber" = [[]] ∧ entry_carol.values "gidNumber" = [[]] ∧
    (_nss_ldap_parse_pw attmap_rfc2307 entry_carol (fresh_state 1024)).1 = NSS_STATUS_SUCCESS ∧
    (_nss_ldap_parse_pw attmap_rfc2307 entry_carol (fresh_state 1024)).2.pw.pw_uid
      = 4294967294 ∧
    (_nss_ldap_parse_pw attmap_rfc2307 entry_carol (fresh_state 1024)).2.pw.pw_gid
      = 4294967294 :=
  ⟨by decide, by decide, by decide,
    ((parse_pw_empty_id_nobody attmap_rfc2307 entry_carol (fresh_state 1024)).1 []
      (by decide)).2 (by decide),
    ((parse_pw_empty_id_nobody attmap_rfc2307 entry_carol (fresh_state 1024)).2 []
      (by decide)).2 (by decide)⟩


/-! ## Failing steps -/

theorem parse_pw_fail_passwd {am : Attmap} {e : LDAPMessage} {s : ParseState}
    (h : (parse_pw_passwd am e (parse_pw_init s)).1 ≠ NSS_STATUS_SUCCESS) :
    _nss_ldap_parse_pw am e s = parse_pw_passwd am e (parse_pw_init s) := by
  simp [_nss_ldap_parse_pw, h]

theorem parse_pw_fail_name {am : Attmap} {e : LDAPMessage} {s s1 : ParseState}
    (h1 : parse_pw_passwd am e (parse_pw_init s) = (NSS_STATUS_SUCCESS, s1))
    (h : (parse_pw_name am e s1).1 ≠ NSS_STATUS_SUCCESS) :
    _nss_ldap_parse_pw am e s = parse_pw_name am e s1 := by
  simp [_nss_ldap_parse_pw, h1, h]

theorem parse_pw_fail_uid {am : Attmap} {e : LDAPMessage} {s s1 s2 : ParseState}
    (h1 : parse_pw_passwd am e (parse_pw_init s) = (NSS_STATUS_SUCCESS, s1))
    (h2 : parse_pw_name am e s1 = (NSS_STATUS_SUCCESS, s2))
    (h : (parse_pw_uid am e s2).1 ≠ NSS_STATUS_SUCCESS) :
    _nss_ldap_parse_pw am e s = parse_pw_uid am e s2 := by
  simp [_nss_ldap_parse_pw, h1, h2, h]

theorem parse_pw_fail_gid {am : Attmap} {e : LDAPMessage} {s s1 s2 s3 : ParseState}
    (h1 : parse_pw_passwd am e (parse_pw_init s) = (NSS_STATUS_SUCCESS, s1))
    (h2 : parse_pw_name am e s1 = (NSS_STATUS_SUCCESS, s2))
    (h3 : parse_pw_uid am e s2 = (NSS_STATUS_SUCCESS, s3))
    (h : (parse_pw_gid am e s3).1 ≠ NSS_STATUS_SUCCESS) :
    _nss_ldap_parse_pw am e s = parse_pw_gid am e s3 := by
  simp [_nss_ldap_parse_pw, h1, h2, h3, h]

theorem parse_pw_fail_gecos {am : Attmap} {e : LDAPMessage} {s s1 s2 s3 s4 : ParseState}
    (h1 : parse_pw_passwd am e (parse_pw_init s) = (NSS_STATUS_SUCCESS, s1))
    (h2 : parse_pw_name am e s1 = (NSS_STATUS_SUCCESS, s2))
    (h3 : parse_pw_uid am e s2 = (NSS_STATUS_SUCCESS, s3))
    (h4 : parse_pw_gid am e s3 = (NSS_STATUS_SUCCESS, s4))
    (h : (parse_pw_gecos am e s4).1 ≠ NSS_STATUS_SUCCESS) :
    _nss_ldap_parse_pw am e s = parse_pw_gecos am e s4 := by
  simp [_nss_ldap_parse_pw, h1, h2, h3, h4, h]

theorem parse_pw_name_absent {am : Attmap} {e : LDAPMessage}
    (h : e.values am.attmap_passwd_uid = []) (t : ParseState) :
    parse_pw_name am e t = (NSS_STATUS_NOTFOUND, t) := by
  simp [parse_pw_name, assign_attrval_absent _ h]

theorem parse_pw_gecos_absent {am : Attmap} {e : LDAPMessage}
    (hg : e.values am.attmap_passwd_gecos = []) (hc : e.values am.attmap_passwd_cn = [])
    (t : ParseState) :
    parse_pw_gecos am e t = (NSS_STATUS_NOTFOUND, { t with pw := { t.pw with pw_gecos := none } }) := by
  simp [parse_pw_gecos, assign_attrval_absent _ hg, assign_attrval_absent _ hc]

/-! ## C5 -/

/-- C5, as amended: for every entry that has no value at all for the uidNumber
attribute (respectively gidNumber), `_nss_ldap_parse_pw` never returns success;
when the preceding steps succeed (password and name, and uid for the gidNumber
case) it returns the not-found status of the extraction with the record as
those steps left it, so no nobody sentinel is substituted. -/
theorem parse_pw_no_numeric_id (am : Attmap) (e : LDAPMessage) (s : ParseState) :
    (e.values am.attmap_passwd_uidNumber = [] →
      (_nss_ldap_parse_pw am e s).1 ≠ NSS_STATUS_SUCCESS ∧
      ∀ s1 s2, parse_pw_passwd am e (parse_pw_init s) = (NSS_STATUS_SUCCESS, s1) →
        parse_pw_name am e s1 = (NSS_STATUS_SUCCESS, s2) →
        _nss_ldap_parse_pw am e s = (NSS_STATUS_NOTFOUND, s2)) ∧
    (e.values am.attmap_passwd_gidNumber = [] →
      (_nss_ldap_parse_pw am e s).1 ≠ NSS_STATUS_SUCCESS ∧
      ∀ s1 s2 s3, parse_pw_passwd am e (parse_pw_init s) = (NSS_STATUS_SUCCESS, s1) →
        parse_pw_name am e s1 = (NSS_STATUS_SUCCESS, s2) →
        parse_pw_uid am e s2 = (NSS_STATUS_SUCCESS, s3) →
        _nss_ldap_parse_pw am e s = (NSS_STATUS_NOTFOUND, s3)) := by
  constructor
  · intro hv
    have hstep : ∀ t, parse_pw_uid am e t = (NSS_STATUS_NOTFOUND, t) := by
      intro t; rw [parse_pw_uid_eq, hv]
    refine ⟨fun h => ?_, fun s1 s2 h1 h2 => ?_⟩
    · obtain ⟨s1, s2, s3, s4, s5, _, _, h3, _⟩ := parse_pw_success h
      rw [hstep s2] at h3
      cases h3
    · rw [parse_pw_fail_uid h1 h2 (by rw [hstep s2]; simp), hstep s2]
  · intro hv
    have hstep : ∀ t, parse_pw_gid am e t = (NSS_STATUS_NOTFOUND, t) := by
      intro t; rw [parse_pw_gid_eq, hv]
    refine ⟨fun h => ?_, fun s1 s2 s3 h1 h2 h3 => ?_⟩
    · obtain ⟨s1, s2, s3, s4, s5, _, _, _, h4, _⟩ := parse_pw_success h
      rw [hstep s3] at h4
      cases h4
    · rw [parse_pw_fail_gid h1 h2 h3 (by rw [hstep s3]; simp), hstep s3]

theorem parse_pw_no_numeric_id_witness :
    entry_dave.values "uidNumber" = [] ∧
    (_nss_ldap_parse_pw attmap_rfc2307 entry_dave (fresh_state 1024)).1 ≠ NSS_STATUS_SUCCESS ∧
    (_nss_ldap_parse_pw attmap_rfc2307 entry_dave (fresh_state 1024)).1 = NSS_STATUS_NOTFOUND :=
  ⟨by decide,
    ((parse_pw_no_numeric_id attmap_rfc2307 entry_dave (fresh_state 1024)).1 (by decide)).1,
    congrArg Prod.fst
      (((parse_pw_no_numeric_id attmap_rfc2307 entry_dave (fresh_state 1024)).1 (by decide)).2
        _ _ rfl rfl)⟩

/-- C5 fails as stated: `entry_dave` has no uidNumber value, its password and
name are extracted, and yet `_nss_ldap_parse_pw` fails with not-found and
`pw_uid` is not the nobody sentinel. -/
theorem parse_pw_no_uidNumber_counterexample :
    entry_dave.values "uidNumber" = [] ∧
    (parse_pw_passwd attmap_rfc2307 entry_dave (parse_pw_init (fresh_state 1024))).1
      = NSS_STATUS_SUCCESS ∧
    (parse_pw_name attmap_rfc2307 entry_dave
      (parse_pw_passwd attmap_rfc2307 entry_dave (parse_pw_init (fresh_state 1024))).2).1
      = NSS_STATUS_SUCCESS ∧
    (_nss_ldap_parse_pw attmap_rfc2307 entry_dave (fresh_state 1024)).1 = NSS_STATUS_NOTFOUND ∧
    (_nss_ldap_parse_pw attmap_rfc2307 entry_dave (fresh_state 1024)).2.pw.pw_uid
      ≠ to_uid_t UID_NOBODY := by
  refine ⟨by decide, by decide, by decide, by decide, by decide⟩


/-! ## C6 -/

/-- C6: for every entry with no gecos value but a cn value, the gecos step
succeeds whenever the arena can hold the first cn value and its terminator, and
every successful `_nss_ldap_parse_pw` leaves `pw_gecos` pointing at a copy of
the first cn value. -/
theorem parse_pw_gecos_from_cn (am : Attmap) (e : LDAPMessage) (s : ParseState)
    (v : List Char) (vs : List (List Char))
    (hg : e.values am.attmap_passwd_gecos = [])
    (hc : e.values am.attmap_passwd_cn = v :: vs) :
    (∀ t : ParseState, strlen v + 1 ≤ t.arena.buflen →
      (parse_pw_gecos am e t).1 = NSS_STATUS_SUCCESS) ∧
    ((_nss_ldap_parse_pw am e s).1 = NSS_STATUS_SUCCESS →
      StringField (_nss_ldap_parse_pw am e s).2
        (_nss_ldap_parse_pw am e s).2.pw.pw_gecos (cstr v)) := by
  constructor
  · intro t ht
    have hlt : ¬ t.arena.buflen < strlen v + 1 := by omega
    unfold parse_pw_gecos
    rw [assign_attrval_absent _ hg]
    simp [_nss_ldap_assign_attrval, hc, hlt]
  · intro h
    obtain ⟨s1, s2, s3, s4, s5, _, _, _, _, h5, _, _, _, g, _, _, _, _, hp⟩ :=
      parse_pw_success_frames h
    rw [hp]
    refine StringField.mono ?_ g
    unfold parse_pw_gecos at h5
    rw [assign_attrval_absent _ hg] at h5
    simp only [] at h5
    split at h5
    · rename_i st herr
      injection h5 with h5 _
      exact absurd h5 (assign_attrval_error_ne herr)
    · rename_i p a hok
      injection h5 with _ h5
      obtain ⟨_, w, ws, hw, _, _, _, hf⟩ := assign_attrval_carves hok s4 s5 rfl (by rw [← h5])
      rw [hc] at hw
      injection hw with hw _
      subst hw
      rw [← h5] at hf ⊢
      exact hf

theorem parse_pw_gecos_from_cn_witness :
    entry_carol.values "gecos" = [] ∧ entry_carol.values "cn" = ["Carol".toList] ∧
    (_nss_ldap_parse_pw attmap_rfc2307 entry_carol (fresh_state 1024)).1 = NSS_STATUS_SUCCESS ∧
    StringField (_nss_ldap_parse_pw attmap_rfc2307 entry_carol (fresh_state 1024)).2
      (_nss_ldap_parse_pw attmap_rfc2307 entry_carol (fresh_state 1024)).2.pw.pw_gecos
      "Carol".toList :=
  ⟨by decide, by decide, by decide,
    (parse_pw_gecos_from_cn attmap_rfc2307 entry_carol (fresh_state 1024) "Carol".toList []
      (by decide) (by decide)).2 (by decide)⟩

/-! ## C7 -/

/-- C7, as amended: for every entry that has neither a gecos value nor a cn
value, `_nss_ldap_parse_pw` never returns success; when the password, name,
uidNumber and gidNumber steps succeed it returns the not-found status of the cn
extraction, with `pw_gecos` set to null. -/
theorem parse_pw_no_gecos_no_cn (am : Attmap) (e : LDAPMessage) (s : ParseState)
    (hg : e.values am.attmap_passwd_gecos = [])
    (hc : e.values am.attmap_passwd_cn = []) :
    (_nss_ldap_parse_pw am e s).1 ≠ NSS_STATUS_SUCCESS ∧
    ∀ s1 s2 s3 s4, parse_pw_passwd am e (parse_pw_init s) = (NSS_STATUS_SUCCESS, s1) →
      parse_pw_name am e s1 = (NSS_STATUS_SUCCESS, s2) →
      parse_pw_uid am e s2 = (NSS_STATUS_SUCCESS, s3) →
      parse_pw_gid am e s3 = (NSS_STATUS_SUCCESS, s4) →
      _nss_ldap_parse_pw am e s =
        (NSS_STATUS_NOTFOUND, { s4 with pw := { s4.pw with pw_gecos := none } }) := by
  refine ⟨fun h => ?_, fun s1 s2 s3 s4 h1 h2 h3 h4 => ?_⟩
  · obtain ⟨s1, s2, s3, s4, s5, _, _, _, _, h5, _⟩ := parse_pw_success h
    rw [parse_pw_gecos_absent hg hc s4] at h5
    cases h5
  · rw [parse_pw_fail_gecos h1 h2 h3 h4 (by rw [parse_pw_gecos_absent hg hc s4]; simp),
      parse_pw_gecos_absent hg hc s4]

theorem parse_pw_no_gecos_no_cn_witness :
    entry_erin.values "gecos" = [] ∧ entry_erin.values "cn" = [] ∧
    (_nss_ldap_parse_pw attmap_rfc2307 entry_erin (fresh_state 1024)).1 ≠ NSS_STATUS_SUCCESS ∧
    (_nss_ldap_parse_pw attmap_rfc2307 entry_erin (fresh_state 1024)).1 = NSS_STATUS_NOTFOUND :=
  ⟨by decide, by decide,
    (parse_pw_no_gecos_no_cn attmap_rfc2307 entry_erin (fresh_state 1024)
      (by decide) (by decide)).1,
    congrArg Prod.fst
      ((parse_pw_no_gecos_no_cn attmap_rfc2307 entry_erin (fresh_state 1024)
        (by decide) (by decide)).2 _ _ _ _ rfl rfl rfl rfl)⟩

/-- C7 fails as stated: `entry_erin` has neither a gecos nor a cn value, its
password, name, uidNumber and gidNumber are extracted, and `_nss_ldap_parse_pw`
fails with not-found instead of returning success. -/
theorem parse_pw_no_gecos_no_cn_counterexample :
    entry_erin.values "gecos" = [] ∧ entry_erin.values "cn" = [] ∧
    (parse_pw_passwd attmap_rfc2307 entry_erin (parse_pw_init (fresh_state 1024))).1
      = NSS_STATUS_SUCCESS ∧
    (parse_pw_name attmap_rfc2307 entry_erin
      (parse_pw_passwd attmap_rfc2307 entry_erin (parse_pw_init (fresh_state 1024))).2).1
      = NSS_STATUS_SUCCESS ∧
    (parse_pw_uid attmap_rfc2307 entry_erin
      (parse_pw_name attmap_rfc2307 entry_erin
        (parse_pw_passwd attmap_rfc2307 entry_erin
          (parse_pw_init (fresh_state 1024))).2).2).1
      = NSS_STATUS_SUCCESS ∧
    (parse_pw_gid attmap_rfc2307 entry_erin
      (parse_pw_uid attmap_rfc2307 entry_erin
        (parse_pw_name attmap_rfc2307 entry_erin
          (parse_pw_passwd attmap_rfc2307 entry_erin
            (parse_pw_init (fresh_state 1024))).2).2).2).1
      = NSS_STATUS_SUCCESS ∧
    (_nss_ldap_parse_pw attmap_rfc2307 entry_erin (fresh_state 1024)).1 = NSS_STATUS_NOTFOUND ∧
    (_nss_ldap_parse_pw attmap_rfc2307 entry_erin (fresh_state 1024)).1 ≠ NSS_STATUS_SUCCESS := by
  refine ⟨by decide, by decide, by decide, by decide, by decide, by decide, by decide,
    by decide⟩

/-! ## C8 -/

/-- C8, as amended: for every entry that has no value for the login-name
attribute, `_nss_ldap_parse_pw` returns a non-success status for every arena
size and whatever the other attributes are: when the password step succeeds,
the not-found status that the extraction of the name reports; when the
password step fails, the status and state of the password step. -/
theorem parse_pw_no_name (am : Attmap) (e : LDAPMessage) (s : ParseState)
    (hn : e.values am.attmap_passwd_uid = []) :
    (_nss_ldap_parse_pw am e s).1 ≠ NSS_STATUS_SUCCESS ∧
    (∀ s1, parse_pw_passwd am e (parse_pw_init s) = (NSS_STATUS_SUCCESS, s1) →
      _nss_ldap_assign_attrval e am.attmap_passwd_uid s1.arena
        = .error (_nss_ldap_parse_pw am e s).1 ∧
      _nss_ldap_parse_pw am e s = (NSS_STATUS_NOTFOUND, s1)) ∧
    ((parse_pw_passwd am e (parse_pw_init s)).1 ≠ NSS_STATUS_SUCCESS →
      _nss_ldap_parse_pw am e s = parse_pw_passwd am e (parse_pw_init s)) := by
  have key : ∀ s1, parse_pw_passwd am e (parse_pw_init s) = (NSS_STATUS_SUCCESS, s1) →
      _nss_ldap_parse_pw am e s = (NSS_STATUS_NOTFOUND, s1) := by
    intro s1 h1
    rw [parse_pw_fail_name h1 (by rw [parse_pw_name_absent hn s1]; simp),
      parse_pw_name_absent hn s1]
  refine ⟨fun h => ?_, fun s1 h1 => ⟨?_, key s1 h1⟩, fun h => parse_pw_fail_passwd h⟩
  · obtain ⟨s1, s2, s3, s4, s5, _, h2, _⟩ := parse_pw_success h
    rw [parse_pw_name_absent hn s1] at h2
    cases h2
  · rw [key s1 h1, assign_attrval_absent _ hn]

theorem parse_pw_no_name_witness :
    entry_anon.values "uid" = [] ∧
    (_nss_ldap_parse_pw attmap_rfc2307 entry_anon (fresh_state 1024)).1 ≠ NSS_STATUS_SUCCESS ∧
    (_nss_ldap_parse_pw attmap_rfc2307 entry_anon (fresh_state 0)).1 ≠ NSS_STATUS_SUCCESS ∧
    (_nss_ldap_parse_pw attmap_rfc2307 entry_anon (fresh_state 1024)).1 = NSS_STATUS_NOTFOUND ∧
    (_nss_ldap_parse_pw attmap_rfc2307 entry_anon (fresh_state 0)).1
      = (parse_pw_passwd attmap_rfc2307 entry_anon (parse_pw_init (fresh_state 0))).1 :=
  ⟨by decide,
    (parse_pw_no_name attmap_rfc2307 entry_anon (fresh_state 1024) (by decide)).1,
    (parse_pw_no_name attmap_rfc2307 entry_anon (fresh_state 0) (by decide)).1,
    congrArg Prod.fst
      (((parse_pw_no_name attmap_rfc2307 entry_anon (fresh_state 1024) (by decide)).2.1
        _ rfl).2),
    congrArg Prod.fst
      ((parse_pw_no_name attmap_rfc2307 entry_anon (fresh_state 0) (by decide)).2.2
        (by decide))⟩

/-- C8 fails as stated: `entry_anon` has no login-name value and its password
value "pw" needs 3 bytes; with an arena of 0 or of 2 bytes `_nss_ldap_parse_pw`
returns the out-of-space status of the password step, which is not the
not-found status that the extraction of the name reports on that arena. -/
theorem parse_pw_no_name_counterexample :
    entry_anon.values "uid" = [] ∧
    _nss_ldap_assign_attrval entry_anon attmap_rfc2307.attmap_passwd_uid
      (fresh_state 0).arena = .error NSS_STATUS_NOTFOUND ∧
    (_nss_ldap_parse_pw attmap_rfc2307 entry_anon (fresh_state 0)).1 = NSS_STATUS_TRYAGAIN ∧
    _nss_ldap_assign_attrval entry_anon attmap_rfc2307.attmap_passwd_uid
      (fresh_state 2).arena = .error NSS_STATUS_NOTFOUND ∧
    (_nss_ldap_parse_pw attmap_rfc2307 entry_anon (fresh_state 2)).1 = NSS_STATUS_TRYAGAIN ∧
    NSS_STATUS_TRYAGAIN ≠ NSS_STATUS_NOTFOUND := by
  refine ⟨by decide, by rfl, by decide, by rfl, by decide, by decide⟩


/-! ## Succeeding steps -/

theorem assign_attrval_fits {e : LDAPMessage} {attr : String} {a : Arena} {v : List Char}
    {vs : List (List Char)} (hv : e.values attr = v :: vs) (hfit : strlen v + 1 ≤ a.buflen) :
    _nss_ldap_assign_attrval e attr a = .ok (a.buffer,
      { mem := write_cstring a.mem a.buffer (cstr v),
        buffer := a.buffer + (strlen v + 1),
        buflen := a.buflen - (strlen v + 1) }) := by
  have hlt : ¬ a.buflen < strlen v + 1 := by omega
  simp [_nss_ldap_assign_attrval, hv, hlt]

theorem parse_pw_passwd_ok {am : Attmap} {e : LDAPMessage} {s : ParseState} {v : List Char}
    {vs : List (List Char)} (hsh : has_objectclass e "shadowAccount" = false)
    (hv : e.values am.attmap_passwd_userPassword = v :: vs)
    (hfit : strlen v + 1 ≤ s.arena.buflen) :
    ∃ t, parse_pw_passwd am e s = (NSS_STATUS_SUCCESS, t) ∧
      StringField t t.pw.pw_passwd (cstr v) ∧
      t.arena.buflen + (strlen v + 1) = s.arena.buflen := by
  have hok := assign_attrval_fits hv hfit
  obtain ⟨_, w, ws, hw, _, _, hb, hf⟩ := assign_attrval_carves hok s
    { s with pw := { s.pw with pw_passwd := some s.arena.buffer },
             arena := { mem := write_cstring s.arena.mem s.arena.buffer (cstr v),
                        buffer := s.arena.buffer + (strlen v + 1),
                        buflen := s.arena.buflen - (strlen v + 1) } } rfl rfl
  rw [hv] at hw
  injection hw with hw _
  subst hw
  refine ⟨_, ?_, hf, hb⟩
  simp [parse_pw_passwd, hsh, _nss_ldap_assign_userpassword, hok]

theorem parse_pw_name_ok {am : Attmap} {e : LDAPMessage} {s : ParseState} {v : List Char}
    {vs : List (List Char)} (hv : e.values am.attmap_passwd_uid = v :: vs)
    (hfit : strlen v + 1 ≤ s.arena.buflen) :
    ∃ t, parse_pw_name am e s = (NSS_STATUS_SUCCESS, t) ∧
      StringField t t.pw.pw_name (cstr v) ∧
      t.arena.buflen + (strlen v + 1) = s.arena.buflen := by
  have hok := assign_attrval_fits hv hfit
  obtain ⟨_, w, ws, hw, _, _, hb, hf⟩ := assign_attrval_carves hok s
    { s with pw := { s.pw with pw_name := some s.arena.buffer },
             arena := { mem := write_cstring s.arena.mem s.arena.buffer (cstr v),
                        buffer := s.arena.buffer + (strlen v + 1),
                        buflen := s.arena.buflen - (strlen v + 1) } } rfl rfl
  rw [hv] at hw
  injection hw with hw _
  subst hw
  refine ⟨_, ?_, hf, hb⟩
  simp [parse_pw_name, hok]

theorem parse_pw_gecos_ok {am : Attmap} {e : LDAPMessage} {s : ParseState} {v : List Char}
    {vs : List (List Char)} (hv : e.values am.attmap_passwd_gecos = v :: vs)
    (hfit : strlen v + 1 ≤ s.arena.buflen) :
    ∃ t, parse_pw_gecos am e s = (NSS_STATUS_SUCCESS, t) ∧
      StringField t t.pw.pw_gecos (cstr v) ∧
      t.arena.buflen + (strlen v + 1) = s.arena.buflen := by
  have hok := assign_attrval_fits hv hfit
  obtain ⟨_, w, ws, hw, _, _, hb, hf⟩ := assign_attrval_carves hok s
    { s with pw := { s.pw with pw_gecos := some s.arena.buffer },
             arena := { mem := write_cstring s.arena.mem s.arena.buffer (cstr v),
                        buffer := s.arena.buffer + (strlen v + 1),
                        buflen := s.arena.buflen - (strlen v + 1) } } rfl rfl
  rw [hv] at hw
  injection hw with hw _
  subst hw
  refine ⟨_, ?_, hf, hb⟩
  simp [parse_pw_gecos, hok]

theorem parse_pw_dir_ok {am : Attmap} {e : LDAPMessage} {s : ParseState} {v : List Char}
    {vs : List (List Char)} (hv : e.values am.attmap_passwd_homeDirectory = v :: vs)
    (hfit : strlen v + 1 ≤ s.arena.buflen) :
    StringField (parse_pw_dir am e s) (parse_pw_dir am e s).pw.pw_dir (cstr v) ∧
    (parse_pw_dir am e s).arena.buflen + (strlen v + 1) = s.arena.buflen := by
  have hok := assign_attrval_fits hv hfit
  obtain ⟨_, w, ws, hw, _, _, hb, hf⟩ := assign_attrval_carves hok s
    { s with pw := { s.pw with pw_dir := some s.arena.buffer },
             arena := { mem := write_cstring s.arena.mem s.arena.buffer (cstr v),
                        buffer := s.arena.buffer + (strlen v + 1),
                        buflen := s.arena.buflen - (strlen v + 1) } } rfl rfl
  rw [hv] at hw
  injection hw with hw _
  subst hw
  have he : parse_pw_dir am e s =
      { s with pw := { s.pw with pw_dir := some s.arena.buffer },
               arena := { mem := write_cstring s.arena.mem s.arena.buffer (cstr v),
                          buffer := s.arena.buffer + (strlen v + 1),
                          buflen := s.arena.buflen - (strlen v + 1) } } := by
    simp only [parse_pw_dir, hok]
  rw [he]
  exact ⟨hf, hb⟩

theorem parse_pw_shell_empty {am : Attmap} {e : LDAPMessage} {s : ParseState}
    (hv : e.values am.attmap_passwd_loginShell = []) (hfit : 2 ≤ s.arena.buflen) :
    StringField (parse_pw_shell am e s) (parse_pw_shell am e s).pw.pw_shell [] := by
  have hlt : ¬ s.arena.buflen < 2 := by omega
  have hok : _nss_ldap_assign_emptystring s.arena = .ok (s.arena.buffer,
      { mem := poke s.arena.mem s.arena.buffer NUL,
        buffer := s.arena.buffer + 1,
        buflen := s.arena.buflen - 1 }) := by
    simp [_nss_ldap_assign_emptystring, hlt]
  obtain ⟨_, _, _, _, hf⟩ := assign_emptystring_carves hok s
    { s with pw := { s.pw with pw_shell := some s.arena.buffer },
             arena := { mem := poke s.arena.mem s.arena.buffer NUL,
                        buffer := s.arena.buffer + 1,
                        buflen := s.arena.buflen - 1 } } rfl rfl
  have he : parse_pw_shell am e s =
      { s with pw := { s.pw with pw_shell := some s.arena.buffer },
               arena := { mem := poke s.arena.mem s.arena.buffer NUL,
                          buffer := s.arena.buffer + 1,
                          buflen := s.arena.buflen - 1 } } := by
    simp only [parse_pw_shell, assign_attrval_absent _ hv, hok]
  rw [he]
  exact hf

theorem parse_pw_uid_ok {am : Attmap} {e : LDAPMessage} (s : ParseState) {v : List Char}
    {vs : List (List Char)} (hv : e.values am.attmap_passwd_uidNumber = v :: vs)
    (hfit : strlen v + 1 ≤ sizeof_tmpbuf - 1) :
    ∃ t, parse_pw_uid am e s = (NSS_STATUS_SUCCESS, t) ∧ t.arena = s.arena ∧
      t.pw.pw_uid = if cstr v = [] then to_uid_t UID_NOBODY else to_uid_t (atol (cstr v)) := by
  have hlt : ¬ sizeof_tmpbuf - 1 < strlen v + 1 := by omega
  refine ⟨{ s with
      tmpbuf := write_cstring s.tmpbuf 0 (cstr v)
      pw := { s.pw with
        pw_uid := if cstr v = [] then to_uid_t UID_NOBODY else to_uid_t (atol (cstr v)) } },
    ?_, rfl, rfl⟩
  rw [parse_pw_uid_eq, hv]
  simp only [hlt, if_false]

theorem parse_pw_gid_ok {am : Attmap} {e : LDAPMessage} (s : ParseState) {v : List Char}
    {vs : List (List Char)} (hv : e.values am.attmap_passwd_gidNumber = v :: vs)
    (hfit : strlen v + 1 ≤ sizeof_tmpbuf - 1) :
    ∃ t, parse_pw_gid am e s = (NSS_STATUS_SUCCESS, t) ∧ t.arena = s.arena ∧
      t.pw.pw_gid = if cstr v = [] then to_gid_t GID_NOBODY else to_gid_t (atol (cstr v)) := by
  have hlt : ¬ sizeof_tmpbuf - 1 < strlen v + 1 := by omega
  refine ⟨{ s with
      tmpbuf := write_cstring s.tmpbuf 0 (cstr v)
      pw := { s.pw with
        pw_gid := if cstr v = [] then to_gid_t GID_NOBODY else to_gid_t (atol (cstr v)) } },
    ?_, rfl, rfl⟩
  rw [parse_pw_gid_eq, hv]
  simp only [hlt, if_false]

/-! ## C9 -/

/-- C9: the concrete scenario. For the entry with uid alice, uidNumber 1000, an
empty gidNumber, homeDirectory /home/alice, gecos Alice A, the password value
{crypt}xyz and no shadowAccount class, and for a 1024-byte arena (whatever the
memory, the cursor and the record hold before), `_nss_ldap_parse_pw` returns
success with name alice, password {crypt}xyz, uid 1000, gid `GID_NOBODY`, gecos
Alice A, dir /home/alice and an empty shell. -/
theorem parse_pw_alice (pw : passwd) (mem tmpbuf : Mem) (buffer : Nat) :
    has_objectclass entry_alice "shadowAccount" = false ∧
    (_nss_ldap_parse_pw attmap_rfc2307 entry_alice
      ⟨pw, ⟨mem, buffer, 1024⟩, tmpbuf⟩).1 = NSS_STATUS_SUCCESS ∧
    StringField (_nss_ldap_parse_pw attmap_rfc2307 entry_alice ⟨pw, ⟨mem, buffer, 1024⟩, tmpbuf⟩).2
      (_nss_ldap_parse_pw attmap_rfc2307 entry_alice ⟨pw, ⟨mem, buffer, 1024⟩, tmpbuf⟩).2.pw.pw_name
      "alice".toList ∧
    StringField (_nss_ldap_parse_pw attmap_rfc2307 entry_alice ⟨pw, ⟨mem, buffer, 1024⟩, tmpbuf⟩).2
      (_nss_ldap_parse_pw attmap_rfc2307 entry_alice ⟨pw, ⟨mem, buffer, 1024⟩, tmpbuf⟩).2.pw.pw_passwd
      "\x7bcrypt\x7dxyz".toList ∧
    (_nss_ldap_parse_pw attmap_rfc2307 entry_alice ⟨pw, ⟨mem, buffer, 1024⟩, tmpbuf⟩).2.pw.pw_uid
      = 1000 ∧
    (_nss_ldap_parse_pw attmap_rfc2307 entry_alice ⟨pw, ⟨mem, buffer, 1024⟩, tmpbuf⟩).2.pw.pw_gid
      = to_gid_t GID_NOBODY ∧
    StringField (_nss_ldap_parse_pw attmap_rfc2307 entry_alice ⟨pw, ⟨mem, buffer, 1024⟩, tmpbuf⟩).2
      (_nss_ldap_parse_pw attmap_rfc2307 entry_alice ⟨pw, ⟨mem, buffer, 1024⟩, tmpbuf⟩).2.pw.pw_gecos
      "Alice A".toList ∧
    StringField (_nss_ldap_parse_pw attmap_rfc2307 entry_alice ⟨pw, ⟨mem, buffer, 1024⟩, tmpbuf⟩).2
      (_nss_ldap_parse_pw attmap_rfc2307 entry_alice ⟨pw, ⟨mem, buffer, 1024⟩, tmpbuf⟩).2.pw.pw_dir
      "/home/alice".toList ∧
    StringField (_nss_ldap_parse_pw attmap_rfc2307 entry_alice ⟨pw, ⟨mem, buffer, 1024⟩, tmpbuf⟩).2
      (_nss_ldap_parse_pw attmap_rfc2307 entry_alice ⟨pw, ⟨mem, buffer, 1024⟩, tmpbuf⟩).2.pw.pw_shell
      [] := by
  have hsh : has_objectclass entry_alice "shadowAccount" = false := by decide
  have v1 : entry_alice.values attmap_rfc2307.attmap_passwd_userPassword
      = ["\x7bcrypt\x7dxyz".toList] := by decide
  have v2 : entry_alice.values attmap_rfc2307.attmap_passwd_uid = ["alice".toList] := by decide
  have v3 : entry_alice.values attmap_rfc2307.attmap_passwd_uidNumber = ["1000".toList] := by
    decide
  have v4 : entry_alice.values attmap_rfc2307.attmap_passwd_gidNumber = [[]] := by decide
  have v5 : entry_alice.values attmap_rfc2307.attmap_passwd_gecos = ["Alice A".toList] := by
    decide
  have v6 : entry_alice.values attmap_rfc2307.attmap_passwd_homeDirectory
      = ["/home/alice".toList] := by decide
  have v7 : entry_alice.values attmap_rfc2307.attmap_passwd_loginShell = [] := by decide
  have l1 : strlen "\x7bcrypt\x7dxyz".toList + 1 = 11 := by decide
  have l2 : strlen "alice".toList + 1 = 6 := by decide
  have l5 : strlen "Alice A".toList + 1 = 8 := by decide
  have l6 : strlen "/home/alice".toList + 1 = 12 := by decide
  have c1 : cstr "\x7bcrypt\x7dxyz".toList = "\x7bcrypt\x7dxyz".toList := by decide
  have c2 : cstr "alice".toList = "alice".toList := by decide
  have c5 : cstr "Alice A".toList = "Alice A".toList := by decide
  have c6 : cstr "/home/alice".toList = "/home/alice".toList := by decide
  have b0 : (parse_pw_init ⟨pw, ⟨mem, buffer, 1024⟩, tmpbuf⟩).arena.buflen = 1024 := rfl
  obtain ⟨t1, h1, f1, b1⟩ := parse_pw_passwd_ok (s := parse_pw_init ⟨pw, ⟨mem, buffer, 1024⟩, tmpbuf⟩)
    hsh v1 (by rw [l1, b0]; decide)
  rw [l1, b0] at b1
  obtain ⟨t2, h2, f2, b2⟩ := parse_pw_name_ok (s := t1) v2 (by rw [l2]; omega)
  rw [l2] at b2
  obtain ⟨t3, h3, a3, u3⟩ := parse_pw_uid_ok t2 v3 (by decide)
  obtain ⟨t4, h4, a4, u4⟩ := parse_pw_gid_ok t3 v4 (by decide)
  have b4 : t4.arena.buflen = t2.arena.buflen := by rw [a4, a3]
  obtain ⟨t5, h5, f5, b5⟩ := parse_pw_gecos_ok (s := t4) v5 (by rw [l5]; omega)
  rw [l5] at b5
  obtain ⟨f6, b6⟩ := parse_pw_dir_ok (s := t5) v6 (by rw [l6]; omega)
  rw [l6] at b6
  have f7 := parse_pw_shell_empty (s := parse_pw_dir attmap_rfc2307 entry_alice t5) v7 (by omega)
  have hst : (_nss_ldap_parse_pw attmap_rfc2307 entry_alice
      ⟨pw, ⟨mem, buffer, 1024⟩, tmpbuf⟩).1 = NSS_STATUS_SUCCESS := by
    simp [_nss_ldap_parse_pw, h1, h2, h3, h4, h5]
  obtain ⟨s1, s2, s3, s4, s5, k1, k2, k3, k4, k5, k6, g1, g2, g5, p1, p2, p3, p4, p5⟩ :=
    parse_pw_success_frames hst
  rw [h1] at k1; injection k1 with _ k1; subst k1
  rw [h2] at k2; injection k2 with _ k2; subst k2
  rw [h3] at k3; injection k3 with _ k3; subst k3
  rw [h4] at k4; injection k4 with _ k4; subst k4
  rw [h5] at k5; injection k5 with _ k5; subst k5
  obtain ⟨g7, _, q7⟩ := parse_pw_shell_frame attmap_rfc2307 entry_alice
    (parse_pw_dir attmap_rfc2307 entry_alice t5)
  refine ⟨hsh, hst, ?_, ?_, ?_, ?_, ?_, ?_, ?_⟩
  · rw [p2, ← c2]; exact f2.mono g2
  · rw [p1, ← c1]; exact f1.mono g1
  · rw [p3, u3]; decide
  · rw [p4, u4]; decide
  · rw [p5, ← c5]; exact f5.mono g5
  · rw [k6, q7, ← c6]; exact f6.mono g7
  · rw [k6]; exact f7


/-! ## C10 -/

theorem vformat_byname (a b c d : List Char) :
    vformat "(&(%s=%s)(%s=%s))".toList
      [FmtArg.str a, FmtArg.str b, FmtArg.str c, FmtArg.str d]
    = byname_filter_text (cstr a) (cstr b) (cstr c) (cstr d) := by
  have hf : "(&(%s=%s)(%s=%s))".toList
      = ['(', '&', '(', '%', 's', '=', '%', 's', ')', '(', '%', 's', '=', '%', 's', ')', ')'] := by
    decide
  rw [hf]
  simp [vformat, byname_filter_text]

/-- C10: for every name, if escaping the name into the 1024-byte scratch buffer
fails, `mkfilter_passwd_byname` returns -1 and leaves the caller's buffer alone;
otherwise the text it formats is exactly
"(&(" ++ objectClassAttr ++ "=" ++ entryClass ++ ")(" ++ uidAttr ++ "=" ++ escaped(name) ++ "))":
the buffer receives that text (cut to `buflen - 1` characters when it does not
fit) and 0 is returned when it fits. The name enters only through its escaped
form: two names with the same escaped form give the same result. -/
theorem mkfilter_passwd_byname_escaped (esc : List Char → Nat → Option (List Char))
    (am : Attmap) (name buffer : List Char) (buflen : Nat) :
    (esc name 1024 = none →
      mkfilter_passwd_byname esc am name buffer buflen = (-1, buffer)) ∧
    (∀ buf2, esc name 1024 = some buf2 →
      (∀ text, text = byname_filter_text (cstr am.attmap_objectClass.toList)
          (cstr am.attmap_passwd_objectClass.toList) (cstr am.attmap_passwd_uid.toList)
          (cstr buf2) →
        (text.length < buflen →
          mkfilter_passwd_byname esc am name buffer buflen = (0, text)) ∧
        (¬ text.length < buflen →
          (mkfilter_passwd_byname esc am name buffer buflen).2 = text.take (buflen - 1)))) ∧
    (∀ name2, esc name2 1024 = esc name 1024 →
      mkfilter_passwd_byname esc am name2 buffer buflen
        = mkfilter_passwd_byname esc am name buffer buflen) := by
  refine ⟨fun h => ?_, fun buf2 h text ht => ?_, fun name2 h => ?_⟩
  · simp only [mkfilter_passwd_byname, h]
  · simp only [mkfilter_passwd_byname, h, mysnprintf, vformat_byname, ← ht]
    constructor
    · intro hlt
      rw [if_pos hlt]
    · intro hlt
      rw [if_neg hlt]
  · simp only [mkfilter_passwd_byname, h]

theorem mkfilter_passwd_byname_escaped_witness :
    myldap_escape "a)(b".toList 1024 = some "a\\29\\28b".toList ∧
    mkfilter_passwd_byname myldap_escape attmap_rfc2307 "a)(b".toList [] 1024
      = (0, "(&(objectClass=posixAccount)(uid=a\\29\\28b))".toList) ∧
    myldap_escape (List.replicate 1024 'a') 1024 = none ∧
    mkfilter_passwd_byname myldap_escape attmap_rfc2307 (List.replicate 1024 'a') [] 1024
      = (-1, []) :=
  ⟨by decide,
    ((mkfilter_passwd_byname_escaped myldap_escape attmap_rfc2307 "a)(b".toList [] 1024).2.1
      "a\\29\\28b".toList (by decide)
      "(&(objectClass=posixAccount)(uid=a\\29\\28b))".toList (by decide)).1 (by decide),
    by decide!,
    (mkfilter_passwd_byname_escaped myldap_escape attmap_rfc2307 (List.replicate 1024 'a')
      [] 1024).1 (by decide!)⟩


/-! ## C18 -/

/-- C18, as amended: for every entry with the shadowAccount class the password
step reports out-of-space, leaving the state as it was, exactly when fewer than 3
bytes remain (so also with exactly 2 bytes left); otherwise it succeeds, carves
exactly 2 bytes (cursor advanced by 2, remaining capacity reduced by 2), stores
"x" and its terminator in them, lets `pw_passwd` point at them and changes no
other byte of memory. -/
theorem parse_pw_shadow_carves (am : Attmap) (e : LDAPMessage) (s : ParseState)
    (hsh : has_objectclass e "shadowAccount" = true) :
    (s.arena.buflen < 3 → parse_pw_passwd am e s = (NSS_STATUS_TRYAGAIN, s)) ∧
    (3 ≤ s.arena.buflen →
      (parse_pw_passwd am e s).1 = NSS_STATUS_SUCCESS ∧
      (parse_pw_passwd am e s).2.arena.buffer = s.arena.buffer + 2 ∧
      (parse_pw_passwd am e s).2.arena.buflen + 2 = s.arena.buflen ∧
      (parse_pw_passwd am e s).2.pw.pw_passwd = some s.arena.buffer ∧
      CStringAt (parse_pw_passwd am e s).2.arena.mem s.arena.buffer ['x'] ∧
      ∀ i, i < s.arena.buffer ∨ s.arena.buffer + 2 ≤ i →
        (parse_pw_passwd am e s).2.arena.mem i = s.arena.mem i) := by
  rw [parse_pw_passwd_shadow s hsh]
  constructor
  · intro h
    rw [if_pos h]
  · intro h
    have hlt : ¬ s.arena.buflen < 3 := by omega
    rw [if_neg hlt]
    refine ⟨rfl, rfl, by simp only []; omega, rfl,
      CStringAt_write_cstring _ _ _ (by decide), fun i hi => ?_⟩
    rcases hi with hi | hi
    · exact write_cstring_below _ _ _ _ hi
    · exact write_cstring_above _ _ _ _ (by simp; omega)

theorem parse_pw_shadow_carves_witness :
    has_objectclass entry_bob "shadowAccount" = true ∧
    parse_pw_passwd attmap_rfc2307 entry_bob (fresh_state 2)
      = (NSS_STATUS_TRYAGAIN, fresh_state 2) ∧
    (parse_pw_passwd attmap_rfc2307 entry_bob (fresh_state 3)).1 = NSS_STATUS_SUCCESS ∧
    (parse_pw_passwd attmap_rfc2307 entry_bob (fresh_state 3)).2.arena.buffer = 2 ∧
    (parse_pw_passwd attmap_rfc2307 entry_bob (fresh_state 3)).2.arena.buflen = 1 :=
  ⟨by decide,
    (parse_pw_shadow_carves attmap_rfc2307 entry_bob (fresh_state 2) (by decide)).1 (by decide),
    ((parse_pw_shadow_carves attmap_rfc2307 entry_bob (fresh_state 3) (by decide)).2
      (by decide)).1,
    ((parse_pw_shadow_carves attmap_rfc2307 entry_bob (fresh_state 3) (by decide)).2
      (by decide)).2.1,
    by decide⟩

/-- C18 fails as stated: with exactly 2 bytes left, enough for "x" and its
terminator, the password step of a shadow entry still reports out-of-space. -/
theorem parse_pw_shadow_two_bytes_counterexample :
    has_objectclass entry_bob "shadowAccount" = true ∧
    ¬ (fresh_state 2).arena.buflen < 2 ∧
    (parse_pw_passwd attmap_rfc2307 entry_bob (fresh_state 2)).1 = NSS_STATUS_TRYAGAIN ∧
    (_nss_ldap_parse_pw attmap_rfc2307 entry_bob (fresh_state 2)).1 = NSS_STATUS_TRYAGAIN := by
  refine ⟨by decide, by decide, by decide, by decide⟩

/-! ## C19 -/

/-- C19: evaluation at the failing input. After the name step 17 bytes are
left for `entry_frank`; the gecos value needs 18, so its extraction reports
out-of-space; the parser then takes the cn value, which fits, and returns
success with `pw_gecos` pointing at the cn value "Fr". On a large arena the same
entry gets its gecos value. -/
theorem parse_pw_gecos_tryagain_falls_back :
    entry_frank.values "gecos" = ["Franklin Delano R".toList] ∧
    entry_frank.values "cn" = ["Fr".toList] ∧
    (parse_pw_gid attmap_rfc2307 entry_frank
      (parse_pw_uid attmap_rfc2307 entry_frank
        (parse_pw_name attmap_rfc2307 entry_frank
          (parse_pw_passwd attmap_rfc2307 entry_frank
            (parse_pw_init (fresh_state 25))).2).2).2).2.arena.buflen = 17 ∧
    _nss_ldap_assign_attrval entry_frank attmap_rfc2307.attmap_passwd_gecos
      { mem := fun _ => NUL, buffer := 8, buflen := 17 } = .error NSS_STATUS_TRYAGAIN ∧
    (_nss_ldap_parse_pw attmap_rfc2307 entry_frank (fresh_state 25)).1 = NSS_STATUS_SUCCESS ∧
    (_nss_ldap_parse_pw attmap_rfc2307 entry_frank (fresh_state 25)).2.pw.pw_gecos = some 8 ∧
    read_cstring (_nss_ldap_parse_pw attmap_rfc2307 entry_frank (fresh_state 25)).2.arena.mem
      25 8 = "Fr".toList ∧
    (_nss_ldap_parse_pw attmap_rfc2307 entry_frank (fresh_state 1024)).2.pw.pw_gecos = some 8 ∧
    read_cstring (_nss_ldap_parse_pw attmap_rfc2307 entry_frank (fresh_state 1024)).2.arena.mem
      1024 8 = "Franklin Delano R".toList := by
  refine ⟨by decide, by decide, by decide, by rfl, by decide, by decide, by decide, by decide,
    by decide⟩

/-! ## C20 -/

/-- C20: the uid and gid steps leave the arena untouched: memory, cursor and
remaining capacity just after the gid step are those just after the name step.
Their outcome (status and record) is the same whatever arena the state carries,
and a first uidNumber or gidNumber value of more than 10 characters is reported
as out-of-space for every arena. -/
theorem parse_pw_ids_leave_arena (am : Attmap) (e : LDAPMessage) (s : ParseState) :
    (parse_pw_uid am e s).2.arena = s.arena ∧
    (parse_pw_gid am e (parse_pw_uid am e s).2).2.arena = s.arena ∧
    (∀ a : Arena,
      (parse_pw_uid am e { s with arena := a }).1 = (parse_pw_uid am e s).1 ∧
      (parse_pw_uid am e { s with arena := a }).2.pw = (parse_pw_uid am e s).2.pw ∧
      (parse_pw_gid am e { s with arena := a }).1 = (parse_pw_gid am e s).1 ∧
      (parse_pw_gid am e { s with arena := a }).2.pw = (parse_pw_gid am e s).2.pw) ∧
    (∀ v vs, e.values am.attmap_passwd_uidNumber = v :: vs → 10 < strlen v →
      parse_pw_uid am e s = (NSS_STATUS_TRYAGAIN, s)) ∧
    (∀ v vs, e.values am.attmap_passwd_gidNumber = v :: vs → 10 < strlen v →
      parse_pw_gid am e s = (NSS_STATUS_TRYAGAIN, s)) := by
  refine ⟨(parse_pw_uid_frame am e s).1, ?_, fun a => ?_, fun v vs hv hl => ?_,
    fun v vs hv hl => ?_⟩
  · rw [(parse_pw_gid_frame am e _).1, (parse_pw_uid_frame am e s).1]
  · simp only [parse_pw_uid_eq, parse_pw_gid_eq]
    refine ⟨?_, ?_, ?_, ?_⟩
    · cases e.values am.attmap_passwd_uidNumber with
      | nil => rfl
      | cons v vs => simp only []; split_ifs <;> rfl
    · cases e.values am.attmap_passwd_uidNumber with
      | nil => rfl
      | cons v vs => simp only []; split_ifs <;> rfl
    · cases e.values am.attmap_passwd_gidNumber with
      | nil => rfl
      | cons v vs => simp only []; split_ifs <;> rfl
    · cases e.values am.attmap_passwd_gidNumber with
      | nil => rfl
      | cons v vs => simp only []; split_ifs <;> rfl
  · have hlt : sizeof_tmpbuf - 1 < strlen v + 1 := by
      have : sizeof_tmpbuf = 12 := by decide
      omega
    rw [parse_pw_uid_eq, hv]
    simp only [hlt, if_true]
  · have hlt : sizeof_tmpbuf - 1 < strlen v + 1 := by
      have : sizeof_tmpbuf = 12 := by decide
      omega
    rw [parse_pw_gid_eq, hv]
    simp only [hlt, if_true]

theorem parse_pw_ids_leave_arena_witness :
    entry_gina.values "uidNumber" = ["12345678901".toList] ∧
    10 < strlen "12345678901".toList ∧
    (parse_pw_uid attmap_rfc2307 entry_gina (fresh_state 0)).1 = NSS_STATUS_TRYAGAIN ∧
    (parse_pw_uid attmap_rfc2307 entry_gina (fresh_state 1024)).1 = NSS_STATUS_TRYAGAIN ∧
    (_nss_ldap_parse_pw attmap_rfc2307 entry_gina (fresh_state 1024)).1 = NSS_STATUS_TRYAGAIN :=
  ⟨by decide, by decide,
    congrArg Prod.fst
      ((parse_pw_ids_leave_arena attmap_rfc2307 entry_gina (fresh_state 0)).2.2.2.1
        "12345678901".toList [] (by decide) (by decide)),
    congrArg Prod.fst
      ((parse_pw_ids_leave_arena attmap_rfc2307 entry_gina (fresh_state 1024)).2.2.2.1
        "12345678901".toList [] (by decide) (by decide)),
    by decide⟩

/-! ## C11 -/

/-- C11: evaluation at the failing input. `mkfilter_passwd_byuid` never returns
a negative value: it returns the length of the whole filter text, also when the
text does not fit. For uid 1000 and a 10-byte buffer the 45-character filter is
cut to 9 characters and 45 is returned, where its header comment announces -1
and where `mkfilter_passwd_all`, which goes through `mysnprintf`, returns -1. -/
theorem mkfilter_passwd_byuid_no_failure_value :
    (∀ (am : Attmap) (uid : Nat) (buffer : List Char) (buflen : Nat),
      0 ≤ (mkfilter_passwd_byuid am uid buffer buflen).1) ∧
    mkfilter_passwd_byuid attmap_rfc2307 1000 [] 1024
      = (45, "(&(objectClass=posixAccount)(uidNumber=1000))".toList) ∧
    mkfilter_passwd_byuid attmap_rfc2307 1000 [] 10 = (45, "(&(object".toList) ∧
    mkfilter_passwd_all attmap_rfc2307 10 = (-1, "(objectCl".toList) := by
  refine ⟨fun am uid buffer buflen => ?_, by decide, by decide, by decide⟩
  simp [mkfilter_passwd_byuid, snprintf]

/-! ## C12 -/

/-- C12: evaluation at the failing input. For the id 4294967294, a `uid_t`
value, and a 1024-byte buffer `mkfilter_passwd_byuid` writes the filter with
"-2" in the place of the id, and for 2147483648 it writes "-2147483648": `%d`
prints the id as a signed `int`. Ids below 2^31, such as 1000, come out in
decimal. -/
theorem mkfilter_passwd_byuid_signed :
    mkfilter_passwd_byuid attmap_rfc2307 4294967294 [] 1024
      = (43, "(&(objectClass=posixAccount)(uidNumber=-2))".toList) ∧
    mkfilter_passwd_byuid attmap_rfc2307 2147483648 [] 1024
      = (52, "(&(objectClass=posixAccount)(uidNumber=-2147483648))".toList) ∧
    mkfilter_passwd_byuid attmap_rfc2307 2147483647 [] 1024
      = (51, "(&(objectClass=posixAccount)(uidNumber=2147483647))".toList) ∧
    mkfilter_passwd_byuid attmap_rfc2307 1000 [] 1024
      = (45, "(&(objectClass=posixAccount)(uidNumber=1000))".toList) := by
  refine ⟨by decide, by decide, by decide, by decide⟩

/-! ## C17 -/

/-- C17, as amended: after `passwd_attlst_init` the list consists, in this
order, of the login-name, password, numeric-uid, numeric-gid, common-name (cn),
home-directory, login-shell, display-name (gecos) and object-class attribute
names followed by the null terminator: nine names, then `NULL`, ten slots in
all. -/
theorem passwd_attlst_init_names (am : Attmap) :
    passwd_attlst_init am =
      [some am.attmap_passwd_uid, some am.attmap_passwd_userPassword,
       some am.attmap_passwd_uidNumber, some am.attmap_passwd_gidNumber,
       some am.attmap_passwd_cn, some am.attmap_passwd_homeDirectory,
       some am.attmap_passwd_loginShell, some am.attmap_passwd_gecos,
       some am.attmap_objectClass, none] ∧
    (passwd_attlst_init am).length = 10 ∧
    ((passwd_attlst_init am).takeWhile Option.isSome).length = 9 ∧
    (passwd_attlst_init am).get? 9 = some none ∧
    (∀ attr ∈ [am.attmap_passwd_uid, am.attmap_passwd_userPassword,
        am.attmap_passwd_uidNumber, am.attmap_passwd_gidNumber, am.attmap_passwd_gecos,
        am.attmap_passwd_cn, am.attmap_passwd_homeDirectory, am.attmap_passwd_loginShell],
      some attr ∈ passwd_attlst_init am) := by
  refine ⟨rfl, rfl, rfl, rfl, fun attr h => ?_⟩
  simp only [passwd_attlst_init, List.mem_cons] at h ⊢
  tauto

/-- C17 fails as stated: with the RFC 2307 names the list is not the eight
names login-name, password, numeric-uid, numeric-gid, display-name,
home-directory, login-shell, object-class followed by `NULL`; it has ten
slots, cn in the fifth and gecos in the eighth. -/
theorem passwd_attlst_init_counterexample :
    passwd_attlst_init attmap_rfc2307 ≠
      [some "uid", some "userPassword", some "uidNumber", some "gidNumber", some "gecos",
       some "homeDirectory", some "loginShell", some "objectClass", none] ∧
    (passwd_attlst_init attmap_rfc2307).length = 10 ∧
    (passwd_attlst_init attmap_rfc2307).get? 4 = some (some "cn") ∧
    (passwd_attlst_init attmap_rfc2307).get? 7 = some (some "gecos") := by
  refine ⟨by decide, by decide, by decide, by decide⟩


theorem passwd_attlst_init_names_witness :
    some "cn" ∈ passwd_attlst_init attmap_rfc2307 ∧
    some "gecos" ∈ passwd_attlst_init attmap_rfc2307 :=
  ⟨(passwd_attlst_init_names attmap_rfc2307).2.2.2.2 "cn" (by decide),
    (passwd_attlst_init_names attmap_rfc2307).2.2.2.2 "gecos" (by decide)⟩

/-! ## C13 -/

/-- C13: evaluation at the failing input. Whatever `mkfilter_passwd_byname`
returns, the first thing `nslcd_passwd_byname` does with a name it has read is
to run the search with the text the filter buffer then holds; when escaping
fails this is the text the buffer held on entry. For a name of 255 opening
parentheses and a login-name attribute of 250 characters the filter does not
fit, `mkfilter_passwd_byname` returns -1, the search is run with the text cut
to 1023 characters and the result code written is the success the search
returned, the record following it. -/
theorem nslcd_passwd_byname_unchecked_filter :
    (∀ (k : NslcdConsts) (esc : List Char → Nat → Option (List Char)) (am : Attmap)
        (search : List Char → List (Option String) → Int × passwd)
        (name filter : List Char) (fp : Nat),
      (nslcd_passwd_byname k esc am search (some name) filter fp).2.head?
        = some (Event.getbyname (mkfilter_passwd_byname esc am name filter 1024).2)) ∧
    (∀ (am : Attmap) (name filter : List Char),
      mkfilter_passwd_byname (fun _ _ => none) am name filter 1024 = (-1, filter)) ∧
    (mkfilter_passwd_byname myldap_escape attmap_long (List.replicate 255 '(') [] 1024).1
      = -1 ∧
    (mkfilter_passwd_byname myldap_escape attmap_long (List.replicate 255 '(') [] 1024).2.length
      = 1023 ∧
    nslcd_passwd_byname nslcd_consts myldap_escape attmap_long search_found
        (some (List.replicate 255 '(')) [] 1024
      = (0, [Event.getbyname
              (mkfilter_passwd_byname myldap_escape attmap_long (List.replicate 255 '(')
                [] 1024).2,
             Event.write_int32 1, Event.write_int32 1001, Event.write_int32 0,
             Event.write_string none, Event.write_string none, Event.write_uid 1000,
             Event.write_gid 100, Event.write_string none, Event.write_string none,
             Event.write_string none, Event.flush]) := by
  refine ⟨fun k esc am search name filter fp => ?_, fun am name filter => rfl, by decide!,
    by decide!, by decide!⟩
  simp only [nslcd_passwd_byname]
  rcases fp with _ | _ | _ | _ | _ | _ | _ | _ | _ | _ | _ | fp <;>
    simp [WRITE, NSLCD_PASSWD] <;> split_ifs <;> simp

/-! ## C15 -/

/-- C15: evaluation at the failing input. After a successful context creation,
with no entry to fetch and a stream on which the third write fails,
`nslcd_passwd_all` returns -1 from `WRITE_INT32` and the context is never
released; the same happens when a write fails in the middle of a record. When
no write fails the run ends with enter, release, leave and returns 0. -/
theorem nslcd_passwd_all_write_failure_no_release :
    nslcd_passwd_all nslcd_consts true [] 3 2
      = (-1, [Event.write_int32 1, Event.write_int32 1008, Event.ent_context_init,
              Event.getent]) ∧
    Event.ent_context_release ∉ (nslcd_passwd_all nslcd_consts true [] 3 2).2 ∧
    (nslcd_passwd_all nslcd_consts true [passwd_unset] 3 5).1 = -1 ∧
    Event.ent_context_init ∈ (nslcd_passwd_all nslcd_consts true [passwd_unset] 3 5).2 ∧
    Event.ent_context_release ∉ (nslcd_passwd_all nslcd_consts true [passwd_unset] 3 5).2 ∧
    nslcd_passwd_all nslcd_consts true [] 3 4
      = (0, [Event.write_int32 1, Event.write_int32 1008, Event.ent_context_init,
             Event.getent, Event.write_int32 3, Event.flush, Event.enter,
             Event.ent_context_release, Event.leave]) := by
  refine ⟨by decide, by decide, by decide, by decide, by decide, by decide⟩

/-! ## C16 -/

/-- C16: when context creation fails, `nslcd_passwd_all` returns -1 and nothing
happens besides the two header writes and the attempt to create the context: no
fetch, no record field written, no release (and no enter or leave). -/
theorem nslcd_passwd_all_no_context (k : NslcdConsts) (fetches : List passwd) (last : Int)
    (fp : Nat) :
    (nslcd_passwd_all k false fetches last fp).1 = -1 ∧
    Event.getent ∉ (nslcd_passwd_all k false fetches last fp).2 ∧
    Event.ent_context_release ∉ (nslcd_passwd_all k false fetches last fp).2 ∧
    (∀ ev ∈ (nslcd_passwd_all k false fetches last fp).2,
      ev = Event.write_int32 k.NSLCD_VERSION ∨
      ev = Event.write_int32 k.NSLCD_ACTION_PASSWD_ALL ∨
      ev = Event.ent_context_init) := by
  rcases fp with _ | _ | fp <;> simp [nslcd_passwd_all, WRITE, Chan.log]

theorem nslcd_passwd_all_no_context_witness :
    nslcd_passwd_all nslcd_consts false [passwd_unset] 3 100
      = (-1, [Event.write_int32 1, Event.write_int32 1008, Event.ent_context_init]) ∧
    (Event.ent_context_init = Event.write_int32 1 ∨
      Event.ent_context_init = Event.write_int32 1008 ∨
      Event.ent_context_init = Event.ent_context_init) ∧
    Event.getent ∈ (nslcd_passwd_all nslcd_consts true [passwd_unset] 3 100).2 :=
  ⟨by decide,
    (nslcd_passwd_all_no_context nslcd_consts [passwd_unset] 3 100).2.2.2
      Event.ent_context_init (by decide),
    by decide⟩


/-! ## The layout of the carved strings -/

theorem parse_pw_passwd_carved {am : Attmap} {e : LDAPMessage} {s t : ParseState}
    (h : parse_pw_passwd am e s = (NSS_STATUS_SUCCESS, t)) :
    ∃ str, t.pw.pw_passwd = some s.arena.buffer ∧
      StringField t (some s.arena.buffer) str ∧
      t.arena.buffer = s.arena.buffer + (str.length + 1) ∧
      t.arena.buflen + (str.length + 1) = s.arena.buflen := by
  unfold parse_pw_passwd at h
  split at h
  · split at h
    · cases h
    · rename_i hlt
      injection h with _ h
      subst h
      refine ⟨['x'], rfl, ⟨_, rfl, by simp, CStringAt_write_cstring _ _ _ (by decide)⟩, rfl, ?_⟩
      simp only [List.length_cons, List.length_nil]
      omega
  · split at h
    · rename_i st herr
      injection h with h _
      exact absurd h (assign_attrval_error_ne herr)
    · rename_i p a hok
      injection h with _ h
      obtain ⟨_, v, vs, _, hp, hb, hl, hf⟩ := assign_attrval_carves hok s t rfl (by rw [← h])
      subst hp
      exact ⟨cstr v, by rw [← h], hf, hb, hl⟩

theorem parse_pw_name_carved {am : Attmap} {e : LDAPMessage} {s t : ParseState}
    (h : parse_pw_name am e s = (NSS_STATUS_SUCCESS, t)) :
    ∃ str, t.pw.pw_name = some s.arena.buffer ∧
      StringField t (some s.arena.buffer) str ∧
      t.arena.buffer = s.arena.buffer + (str.length + 1) ∧
      t.arena.buflen + (str.length + 1) = s.arena.buflen := by
  unfold parse_pw_name at h
  split at h
  · rename_i st herr
    injection h with h _
    exact absurd h (assign_attrval_error_ne herr)
  · rename_i p a hok
    injection h with _ h
    obtain ⟨_, v, vs, _, hp, hb, hl, hf⟩ := assign_attrval_carves hok s t rfl (by rw [← h])
    subst hp
    exact ⟨cstr v, by rw [← h], hf, hb, hl⟩

theorem parse_pw_gecos_carved {am : Attmap} {e : LDAPMessage} {s t : ParseState}
    (h : parse_pw_gecos am e s = (NSS_STATUS_SUCCESS, t)) :
    ∃ str, t.pw.pw_gecos = some s.arena.buffer ∧
      StringField t (some s.arena.buffer) str ∧
      t.arena.buffer = s.arena.buffer + (str.length + 1) ∧
      t.arena.buflen + (str.length + 1) = s.arena.buflen := by
  unfold parse_pw_gecos at h
  split at h
  · rename_i p a hok
    injection h with _ h
    obtain ⟨_, v, vs, _, hp, hb, hl, hf⟩ := assign_attrval_carves hok s t rfl (by rw [← h])
    subst hp
    exact ⟨cstr v, by rw [← h], hf, hb, hl⟩
  · split at h
    · rename_i st herr
      injection h with h _
      exact absurd h (assign_attrval_error_ne herr)
    · rename_i p a hok
      injection h with _ h
      obtain ⟨_, v, vs, _, hp, hb, hl, hf⟩ := assign_attrval_carves hok s t rfl (by rw [← h])
      subst hp
      exact ⟨cstr v, by rw [← h], hf, hb, hl⟩

theorem parse_pw_dir_carved (am : Attmap) (e : LDAPMessage) (s : ParseState) :
    (∃ str, (parse_pw_dir am e s).pw.pw_dir = some s.arena.buffer ∧
      StringField (parse_pw_dir am e s) (some s.arena.buffer) str ∧
      (parse_pw_dir am e s).arena.buffer = s.arena.buffer + (str.length + 1) ∧
      (parse_pw_dir am e s).arena.buflen + (str.length + 1) = s.arena.buflen) ∨
    (parse_pw_dir am e s = s ∧ s.arena.buflen < 2) := by
  unfold parse_pw_dir
  split
  · rename_i p a hok
    obtain ⟨_, v, vs, _, hp, hb, hl, hf⟩ := assign_attrval_carves hok s
      { s with pw := { s.pw with pw_dir := some p }, arena := a } rfl rfl
    subst hp
    exact Or.inl ⟨cstr v, rfl, hf, hb, hl⟩
  · split
    · rename_i p a hok
      obtain ⟨_, hp, h2, hb, hf⟩ := assign_emptystring_carves hok s
        { s with pw := { s.pw with pw_dir := some p }, arena := a } rfl rfl
      subst hp
      refine Or.inl ⟨[], rfl, hf, hb, ?_⟩
      unfold _nss_ldap_assign_emptystring at hok
      split at hok
      · cases hok
      · injection hok with hok
        injection hok with _ hok
        subst hok
        simp only [List.length_nil]
        omega
    · rename_i st herr
      refine Or.inr ⟨rfl, ?_⟩
      unfold _nss_ldap_assign_emptystring at herr
      split at herr
      · assumption
      · cases herr

theorem parse_pw_shell_carved (am : Attmap) (e : LDAPMessage) (s : ParseState) :
    (∃ str, (parse_pw_shell am e s).pw.pw_shell = some s.arena.buffer ∧
      StringField (parse_pw_shell am e s) (some s.arena.buffer) str ∧
      (parse_pw_shell am e s).arena.buffer = s.arena.buffer + (str.length + 1) ∧
      (parse_pw_shell am e s).arena.buflen + (str.length + 1) = s.arena.buflen) ∨
    (parse_pw_shell am e s = s ∧ s.arena.buflen < 2) := by
  unfold parse_pw_shell
  split
  · rename_i p a hok
    obtain ⟨_, v, vs, _, hp, hb, hl, hf⟩ := assign_attrval_carves hok s
      { s with pw := { s.pw with pw_shell := some p }, arena := a } rfl rfl
    subst hp
    exact Or.inl ⟨cstr v, rfl, hf, hb, hl⟩
  · split
    · rename_i p a hok
      obtain ⟨_, hp, h2, hb, hf⟩ := assign_emptystring_carves hok s
        { s with pw := { s.pw with pw_shell := some p }, arena := a } rfl rfl
      subst hp
      refine Or.inl ⟨[], rfl, hf, hb, ?_⟩
      unfold _nss_ldap_assign_emptystring at hok
      split at hok
      · cases hok
      · injection hok with hok
        injection hok with _ hok
        subst hok
        simp only [List.length_nil]
        omega
    · rename_i st herr
      refine Or.inr ⟨rfl, ?_⟩
      unfold _nss_ldap_assign_emptystring at herr
      split at herr
      · assumption
      · cases herr


theorem StringField.at {s : ParseState} {p : Nat} {str : List Char}
    (h : StringField s (some p) str) : CStringAt s.arena.mem p str := by
  obtain ⟨q, hq, _, hc⟩ := h
  injection hq with hq
  subst hq
  exact hc

/-- On a success the strings of the record lie one after the other from the
cursor the parse started with: password, name, gecos, then the home directory
and the login shell when these were stored; each is NUL-terminated, and the
bytes they take are exactly the capacity deducted. A home directory or login
shell that was not stored leaves its field as it was before the parse. -/
theorem parse_pw_layout {am : Attmap} {e : LDAPMessage} {s : ParseState}
    (h : (_nss_ldap_parse_pw am e s).1 = NSS_STATUS_SUCCESS) :
    ∃ (spw sname sgecos : List Char) (ndir nshell : Nat),
      (_nss_ldap_parse_pw am e s).2.pw.pw_passwd = some s.arena.buffer ∧
      CStringAt (_nss_ldap_parse_pw am e s).2.arena.mem s.arena.buffer spw ∧
      (_nss_ldap_parse_pw am e s).2.pw.pw_name = some (s.arena.buffer + (spw.length + 1)) ∧
      CStringAt (_nss_ldap_parse_pw am e s).2.arena.mem
        (s.arena.buffer + (spw.length + 1)) sname ∧
      (_nss_ldap_parse_pw am e s).2.pw.pw_gecos
        = some (s.arena.buffer + (spw.length + 1) + (sname.length + 1)) ∧
      CStringAt (_nss_ldap_parse_pw am e s).2.arena.mem
        (s.arena.buffer + (spw.length + 1) + (sname.length + 1)) sgecos ∧
      ((∃ sdir, ndir = sdir.length + 1 ∧
          (_nss_ldap_parse_pw am e s).2.pw.pw_dir
            = some (s.arena.buffer + (spw.length + 1) + (sname.length + 1)
                + (sgecos.length + 1)) ∧
          CStringAt (_nss_ldap_parse_pw am e s).2.arena.mem
            (s.arena.buffer + (spw.length + 1) + (sname.length + 1) + (sgecos.length + 1))
            sdir) ∨
        (ndir = 0 ∧ (_nss_ldap_parse_pw am e s).2.pw.pw_dir = s.pw.pw_dir)) ∧
      ((∃ sshell, nshell = sshell.length + 1 ∧
          (_nss_ldap_parse_pw am e s).2.pw.pw_shell
            = some (s.arena.buffer + (spw.length + 1) + (sname.length + 1)
                + (sgecos.length + 1) + ndir) ∧
          CStringAt (_nss_ldap_parse_pw am e s).2.arena.mem
            (s.arena.buffer + (spw.length + 1) + (sname.length + 1) + (sgecos.length + 1)
              + ndir) sshell) ∨
        (nshell = 0 ∧ (_nss_ldap_parse_pw am e s).2.pw.pw_shell = s.pw.pw_shell)) ∧
      (_nss_ldap_parse_pw am e s).2.arena.buffer
        = s.arena.buffer + (spw.length + 1) + (sname.length + 1) + (sgecos.length + 1)
            + ndir + nshell ∧
      (_nss_ldap_parse_pw am e s).2.arena.buflen
          + ((spw.length + 1) + (sname.length + 1) + (sgecos.length + 1) + ndir + nshell)
        = s.arena.buflen := by
  obtain ⟨s1, s2, s3, s4, s5, h1, h2, h3, h4, h5, h6, g1, g2, g5, q1, q2, q3, q4, q5⟩ :=
    parse_pw_success_frames h
  obtain ⟨spw, e1, f1, b1, l1⟩ := parse_pw_passwd_carved h1
  obtain ⟨sname, e2, f2, b2, l2⟩ := parse_pw_name_carved h2
  obtain ⟨sgecos, e5, f5, b5, l5⟩ := parse_pw_gecos_carved h5
  have i0 : (parse_pw_init s).arena = s.arena := rfl
  have j0 : (parse_pw_init s).pw = s.pw := rfl
  rw [i0] at e1 f1 b1 l1
  have a3 : s3.arena = s2.arena := by
    have := (parse_pw_uid_frame am e s2).1
    rw [h3] at this; exact this
  have a4 : s4.arena = s3.arena := by
    have := (parse_pw_gid_frame am e s3).1
    rw [h4] at this; exact this
  rw [a4, a3] at e5 f5 b5 l5
  -- the fields the earlier steps do not touch
  have k1 := (parse_pw_passwd_frame am e (parse_pw_init s)).2.2
  have k2 := (parse_pw_name_frame am e s1).2.2
  have k3 := (parse_pw_uid_frame am e s2).2
  have k4 := (parse_pw_gid_frame am e s3).2
  have k5 := (parse_pw_gecos_frame am e s4).2.2
  rw [h1] at k1; rw [h2] at k2; rw [h3] at k3; rw [h4] at k4; rw [h5] at k5
  simp only [] at k1 k2 k3 k4 k5
  have hdir : s5.pw.pw_dir = s.pw.pw_dir := by
    rw [k5]; simp only []; rw [k4]; simp only []; rw [k3]; simp only []; rw [k2]
    simp only []; rw [k1, j0]
  have hshell : s5.pw.pw_shell = s.pw.pw_shell := by
    rw [k5]; simp only []; rw [k4]; simp only []; rw [k3]; simp only []; rw [k2]
    simp only []; rw [k1, j0]
  obtain ⟨g6, _, k6⟩ := parse_pw_shell_frame am e (parse_pw_dir am e s5)
  have c1 := (f1.mono g1).at
  have c2 := (f2.mono g2).at
  have c5 := (f5.mono g5).at
  rw [b1] at e2 c2 b2
  rw [b2] at e5 c5 b5
  rcases parse_pw_dir_carved am e s5 with ⟨sdir, d1, d2, d3, d4⟩ | ⟨d1, _⟩
  · rw [b5] at d1 d2 d3
    have cd : CStringAt (_nss_ldap_parse_pw am e s).2.arena.mem
        (s.arena.buffer + (spw.length + 1) + (sname.length + 1) + (sgecos.length + 1))
        sdir := by
      rw [h6]; exact (d2.mono g6).at
    have pd : (_nss_ldap_parse_pw am e s).2.pw.pw_dir
        = some (s.arena.buffer + (spw.length + 1) + (sname.length + 1)
            + (sgecos.length + 1)) := by
      rw [h6, k6]; exact d1
    rcases parse_pw_shell_carved am e (parse_pw_dir am e s5) with ⟨ssh, t1, t2, t3, t4⟩ | ⟨t1, _⟩
    · rw [d3] at t1 t2 t3
      refine ⟨spw, sname, sgecos, sdir.length + 1, ssh.length + 1, ?_, c1, ?_, c2, ?_, c5,
        Or.inl ⟨sdir, rfl, pd, cd⟩, Or.inl ⟨ssh, rfl, ?_, ?_⟩, ?_, ?_⟩
      · rw [q1, e1]
      · rw [q2, e2]
      · rw [q5, e5]
      · rw [h6]; exact t1
      · rw [h6]; exact t2.at
      · rw [h6]; exact t3
      · rw [h6]; omega
    · refine ⟨spw, sname, sgecos, sdir.length + 1, 0, ?_, c1, ?_, c2, ?_, c5,
        Or.inl ⟨sdir, rfl, pd, cd⟩, Or.inr ⟨rfl, ?_⟩, ?_, ?_⟩
      · rw [q1, e1]
      · rw [q2, e2]
      · rw [q5, e5]
      · rw [h6, t1, parse_pw_dir_frame am e s5 |>.2.2]; exact hshell
      · rw [h6, t1]; exact d3
      · rw [h6, t1]; omega
  · rcases parse_pw_shell_carved am e (parse_pw_dir am e s5) with ⟨ssh, t1, t2, t3, t4⟩ | ⟨t1, _⟩
    · rw [d1, b5] at t1 t2 t3
      rw [d1] at t4
      refine ⟨spw, sname, sgecos, 0, ssh.length + 1, ?_, c1, ?_, c2, ?_, c5,
        Or.inr ⟨rfl, ?_⟩, Or.inl ⟨ssh, rfl, ?_, ?_⟩, ?_, ?_⟩
      · rw [q1, e1]
      · rw [q2, e2]
      · rw [q5, e5]
      · rw [h6, k6]; simp only []; rw [d1]; exact hdir
      · rw [h6, d1]; exact t1
      · rw [h6, d1]; exact t2.at
      · rw [h6, d1]; exact t3
      · rw [h6, d1]; omega
    · refine ⟨spw, sname, sgecos, 0, 0, ?_, c1, ?_, c2, ?_, c5,
        Or.inr ⟨rfl, ?_⟩, Or.inr ⟨rfl, ?_⟩, ?_, ?_⟩
      · rw [q1, e1]
      · rw [q2, e2]
      · rw [q5, e5]
      · rw [h6, t1, d1]; exact hdir
      · rw [h6, t1, d1]; exact hshell
      · rw [h6, t1, d1]; exact b5
      · rw [h6, t1, d1]; omega


/-! ## C14 -/

/-- C14: evaluation at the failing input. `entry_alice` has no login shell; on
a 37-byte arena the password, name, gecos and home directory take all 37 bytes,
one after the other, and `_nss_ldap_parse_pw` returns success with `pw_shell`
left unset, so that this string field of the returned record does not point
into the arena. -/
theorem parse_pw_success_shell_outside_arena :
    entry_alice.values "loginShell" = [] ∧
    (_nss_ldap_parse_pw attmap_rfc2307 entry_alice (fresh_state 37)).1 = NSS_STATUS_SUCCESS ∧
    (_nss_ldap_parse_pw attmap_rfc2307 entry_alice (fresh_state 37)).2.pw
      = { passwd_unset with
          pw_passwd := some 0, pw_name := some 11, pw_uid := 1000, pw_gid := 4294967294,
          pw_gecos := some 17, pw_dir := some 25, pw_shell := none } ∧
    (_nss_ldap_parse_pw attmap_rfc2307 entry_alice (fresh_state 37)).2.arena.buffer = 37 ∧
    (_nss_ldap_parse_pw attmap_rfc2307 entry_alice (fresh_state 37)).2.arena.buflen = 0 ∧
    ¬ ∃ p str, StringField (_nss_ldap_parse_pw attmap_rfc2307 entry_alice (fresh_state 37)).2
      (_nss_ldap_parse_pw attmap_rfc2307 entry_alice (fresh_state 37)).2.pw.pw_shell str ∧
      (_nss_ldap_parse_pw attmap_rfc2307 entry_alice (fresh_state 37)).2.pw.pw_shell = some p := by
  refine ⟨by decide, by decide, by decide, by decide, by decide, ?_⟩
  rintro ⟨p, str, _, hp⟩
  have hn : (_nss_ldap_parse_pw attmap_rfc2307 entry_alice (fresh_state 37)).2.pw.pw_shell
      = none := by decide
  rw [hn] at hp
  cases hp

end NslcdPasswd
